import Mathlib

/-!
Verification of the D0010 flow-file import pipeline
(`meter_readings/management/commands/import_d0010.py` together with the
entity layer of `meter_readings/models.py` and the error taxonomy of
`meter_readings/exceptions.py`).

The Python source is shallowly embedded: every function of the import
pipeline becomes an executable Lean definition over explicit state
(`DB`), Python exceptions become an `ImportError` sum type threaded
through `Except`, and Django's `get_or_create` calls become explicit
find-or-append operations on lists, which is exactly what they do under
the uniqueness constraints declared in `models.py`.
-/

/-! ## Python string primitives -/

/-- The whitespace characters stripped by Python `str.strip()` that can
occur in a text line (space, tab, newline, carriage return, vertical
tab, form feed). -/
def pyIsSpace (c : Char) : Bool :=
  c = ' ' || c = '\t' || c = '\n' || c = '\r' || c = '\x0B' || c = '\x0C'

/-- Python `str.strip()`: drop leading and trailing whitespace. -/
def pyStrip (s : String) : String :=
  String.mk (((s.toList.dropWhile pyIsSpace).reverse.dropWhile pyIsSpace).reverse)

/-- Model of Python's per-character `str.isdigit` test, restricted to the
character ranges this development exercises: the ASCII digits `0`-`9`,
the Arabic-Indic digits U+0660-U+0669, and the Latin-1 superscript
digits `¹` `²` `³` (U+00B9, U+00B2, U+00B3) — Python classifies all of
these as digits (the superscripts have Unicode `Numeric_Type=Digit`
although they are not in category `Nd`).  Characters outside these
ranges, none of which appear in this file, are treated as non-digits. -/
def pyIsDigitChar (c : Char) : Bool :=
  c.isDigit || (0x660 ≤ c.toNat && c.toNat ≤ 0x669) || c = '¹' || c = '²' || c = '³'

/-- Python `str.isdigit()`: nonempty and every character a digit. -/
def pyIsDigitStr (s : String) : Bool :=
  !s.toList.isEmpty && s.toList.all pyIsDigitChar

/-- Digit value of a character for Python `int()`, which accepts only
category-`Nd` digits: ASCII and Arabic-Indic digits have a value, the
superscripts do not (so `int` raises on them even though `isdigit` is
true). -/
def charNdVal (c : Char) : Option Nat :=
  if c.isDigit then some (c.toNat - 48)
  else if 0x660 ≤ c.toNat && c.toNat ≤ 0x669 then some (c.toNat - 0x660)
  else none

/-- Python `int(s)` for a string already known to satisfy `isdigit`:
succeeds with the base-10 value when every character is an `Nd` digit,
fails otherwise. -/
def pyIntOfDigits (s : String) : Option Nat :=
  s.toList.foldl
    (fun acc c =>
      match acc, charNdVal c with
      | some n, some d => some (n * 10 + d)
      | _, _ => none)
    (some 0)

/-- Base-10 value of a list of ASCII digit characters. -/
def natOfDigits (cs : List Char) : Nat :=
  cs.foldl (fun n c => n * 10 + (c.toNat - 48)) 0

/-- Python `str.split(sep)` for a one-character separator, by
structural recursion on the character list (`acc` is the reversed
current field): splitting the empty string yields `[""]`, and every
separator occurrence ends a field, exactly as in Python. -/
def pySplitGo (sep : Char) : List Char → List Char → List String
  | [], acc => [String.mk acc.reverse]
  | c :: rest, acc =>
    if c = sep then String.mk acc.reverse :: pySplitGo sep rest []
    else pySplitGo sep rest (c :: acc)

/-- `s.split(sep)` with a one-character separator. -/
def pySplit (sep : Char) (s : String) : List String :=
  pySplitGo sep s.toList []

/-- `os.path.basename`: the part of the path after the last `/`. -/
def basename (p : String) : String :=
  (pySplit '/' p).getLastD p

/-- `raw_data[:50]` — the truncation applied by
`ParsingError.__init__` when building its message. -/
def truncate50 (s : String) : String :=
  String.mk (s.toList.take 50)

/-! ## Dates: `datetime.strptime(date_str, "%Y%m%d%H%M%S")` -/

/-- A parsed naive calendar timestamp.  The Python code localizes it to
Europe/London with `pytz`; `localize` (with its default `is_dst=False`)
is total and injective on naive datetimes, so the naive value is kept
as the canonical representation and equality of localized datetimes
coincides with equality of these records. -/
structure PyDateTime where
  year : Nat
  month : Nat
  day : Nat
  hour : Nat
  minute : Nat
  second : Nat
deriving DecidableEq, Repr

/-- Gregorian leap-year rule used by `datetime`. -/
def isLeapYear (y : Nat) : Bool :=
  (y % 4 = 0 && !(y % 100 = 0)) || y % 400 = 0

/-- Days in a month, as enforced by the `datetime` constructor. -/
def daysInMonth (y m : Nat) : Nat :=
  if m = 2 then (if isLeapYear y then 29 else 28)
  else if m = 4 || m = 6 || m = 9 || m = 11 then 30
  else 31

/-- `datetime.strptime(s, "%Y%m%d%H%M%S")` on a 14-character string:
four digits of year then two digits each of month, day, hour, minute,
second; every field must be in calendar range (`datetime` rejects
year 0, out-of-range months/days, and seconds above 59).  `none`
models the `ValueError` raised on any other input. -/
def pyStrptime14 (s : String) : Option PyDateTime :=
  let cs := s.toList
  if cs.length = 14 && cs.all Char.isDigit then
    let y := natOfDigits (cs.take 4)
    let mo := natOfDigits ((cs.drop 4).take 2)
    let d := natOfDigits ((cs.drop 6).take 2)
    let hh := natOfDigits ((cs.drop 8).take 2)
    let mi := natOfDigits ((cs.drop 10).take 2)
    let ss := natOfDigits ((cs.drop 12).take 2)
    if 1 ≤ y ∧ 1 ≤ mo ∧ mo ≤ 12 ∧ 1 ≤ d ∧ d ≤ daysInMonth y mo ∧
        hh ≤ 23 ∧ mi ≤ 59 ∧ ss ≤ 59 then
      some ⟨y, mo, d, hh, mi, ss⟩
    else none
  else none

/-! ## Decimals: `decimal.Decimal(value_str)` -/

/-- A Python `Decimal` value: sign, coefficient and exponent
(`Decimal("5.0")` is `⟨false, 50, -1⟩`).  Trailing zeros are
significant to `Decimal` and are preserved. -/
structure PyDec where
  neg : Bool
  coeff : Nat
  exp : Int
deriving DecidableEq, Repr

/-- Whether the decimal's numeric value is strictly negative (this is
what `reading_value < 0` tests in `Reading.clean`). -/
def PyDec.isNegVal (d : PyDec) : Bool :=
  d.neg && decide (d.coeff ≠ 0)

/-- Exponent part of the decimal grammar: `(e|E)(+|-)?digits`.
Returns the signed exponent value if the whole list is consumed. -/
def pyDecExponent (cs : List Char) : Option Int :=
  match cs with
  | [] => some 0
  | e :: rest =>
    if e = 'e' || e = 'E' then
      let (sign, ds) :=
        match rest with
        | '-' :: ds => (true, ds)
        | '+' :: ds => (false, ds)
        | ds => (false, ds)
      if ds ≠ [] && ds.all Char.isDigit then
        some (if sign then -(natOfDigits ds : Int) else (natOfDigits ds : Int))
      else none
    else none

/-- `Decimal(s)` on the plain finite-number grammar
`[+|-] digits [. digits] [exponent]` (at least one digit in the
coefficient; ASCII digits).  `none` models `InvalidOperation`.  The
special values (`NaN`, `Infinity`) and exotic digit alphabets accepted
by Python are outside the fragment this repository ever feeds to
`Decimal` and are not modelled. -/
def pyDecimalParse (s : String) : Option PyDec :=
  let (neg, cs) :=
    match s.toList with
    | '-' :: rest => (true, rest)
    | '+' :: rest => (false, rest)
    | rest => (false, rest)
  let intPart := cs.takeWhile Char.isDigit
  let afterInt := cs.dropWhile Char.isDigit
  match afterInt with
  | '.' :: rest =>
    let fracPart := rest.takeWhile Char.isDigit
    let afterFrac := rest.dropWhile Char.isDigit
    if intPart ++ fracPart = [] then none
    else
      match pyDecExponent afterFrac with
      | some e => some ⟨neg, natOfDigits (intPart ++ fracPart), e - fracPart.length⟩
      | none => none
  | rest =>
    if intPart = [] then none
    else
      match pyDecExponent rest with
      | some e => some ⟨neg, natOfDigits intPart, e⟩
      | none => none

/-! ## Error taxonomy (`meter_readings/exceptions.py` plus the two
Django/stdlib exception kinds the command raises) -/

/-- The exceptions that can escape the import pipeline, with the fields
each carries in `exceptions.py`.  `commandError` is Django's
`CommandError` (file not found, database error); `valueError` is a bare
Python `ValueError` raised inside the parsers — both of those are
always caught and re-wrapped as `parsingError` when they occur while a
line is being processed. -/
inductive ImportError where
  | commandError (message : String)
  | valueError (message : String)
  | duplicateFile (message : String) (filename : String)
  | invalidFormat (message : String) (filename : Option String)
      (expected : Option String) (got : Option String)
  | invalidMPAN (mpan : String)
  | parsingError (recordType : String) (rawData : String)
      (filename : String) (lineNumber : Nat)
deriving DecidableEq, Repr

/-- `D0010ImportError.format_message` / `ParsingError.__init__` for a
`ParsingError`: the base message names the record type and appends the
raw line truncated to 50 characters, then filename and 1-based line
number are appended, `" | "`-separated. -/
def parsingErrorMessage (recordType rawData filename : String) (lineNumber : Nat) : String :=
  (if rawData = "" then "Failed to parse " ++ recordType ++ " record"
   else "Failed to parse " ++ recordType ++ " record: " ++ truncate50 rawData ++ "...")
  ++ (if filename = "" then "" else " | File: " ++ filename)
  ++ (if lineNumber = 0 then "" else " | Line: " ++ toString lineNumber)

/-! ## Record parsers (`import_d0010.py` lines 147-235) -/

/-- Result of `parse_header`: the dict built from a `ZHV` record. -/
structure HeaderData where
  recordType : String
  fileReference : String
  flowReference : String
deriving DecidableEq, Repr

/-- Result of `parse_trailer`: the dict built from a `ZPT` record
(`file_reference` is `None` when the field is missing). -/
structure TrailerData where
  recordType : String
  fileReference : Option String
  recordCount : Nat
deriving DecidableEq, Repr

/-- Result of `parse_reading_record`: one reading candidate.
`meterType` is `Optional[str]` in the Python signature and is kept as
such. -/
structure ReadingData where
  mpan : String
  meterSerial : String
  meterType : Option String
  registerId : String
  readingDate : PyDateTime
  readingValue : PyDec
  readingType : String
deriving DecidableEq, Repr

/-- `Command.parse_header`: fields 1 and 2 default to the empty string
when missing; nothing is validated. -/
def parse_header (parts : List String) : HeaderData :=
  { recordType := parts.headD ""
    fileReference := parts.getD 1 ""
    flowReference := parts.getD 2 "" }

/-- `Command.parse_mpan_record`: requires at least the MPAN field,
strips it, and accepts it exactly when `mpan.isdigit()` holds and the
length is 13; otherwise `InvalidMPANError`. -/
def parse_mpan_record (parts : List String) : Except ImportError String :=
  if parts.length < 2 then
    .error (.invalidFormat "Invalid 026 MPAN record format" none
      (some "026|MPAN") (some ("026|" ++ toString (parts.length - 1) ++ " fields")))
  else
    let mpan := pyStrip (parts.getD 1 "")
    if !pyIsDigitStr mpan || mpan.length ≠ 13 then
      .error (.invalidMPAN mpan)
    else
      .ok mpan

/-- `Command.parse_meter_record`: requires at least three fields
(`028|SERIAL|TYPE`); the serial is stripped and must be nonempty; the
type is the stripped field 2 (the `else "S"` default in the source is
unreachable because `len(parts) < 3` has already been rejected). -/
def parse_meter_record (parts : List String) : Except ImportError (String × String) :=
  if parts.length < 3 then
    .error (.invalidFormat "Invalid 028 meter record format" none
      (some "028|SERIAL|TYPE") (some ("028|" ++ toString (parts.length - 1) ++ " fields")))
  else
    let serialNumber := pyStrip (parts.getD 1 "")
    let meterType := if parts.length > 2 then pyStrip (parts.getD 2 "") else "S"
    if serialNumber = "" then
      .error (.invalidFormat "Empty meter serial number" none none none)
    else
      .ok (serialNumber, meterType)

/-- `Command.parse_reading_record`: requires four fields, parses the
date (which must be 14 characters and a valid calendar timestamp,
otherwise `ValueError: Could not parse reading date`) and the value as
a `Decimal` (otherwise `ValueError: Invalid reading value`), and emits
the reading candidate with `reading_type = "ACTUAL"`. -/
def parse_reading_record (parts : List String) (mpan meterSerial : String)
    (meterType : Option String) : Except ImportError ReadingData :=
  if parts.length < 4 then
    .error (.invalidFormat "Invalid 030 reading record format" none
      (some "030|REG_ID|DATE|VALUE") (some ("030|" ++ toString (parts.length - 1) ++ " fields")))
  else
    let registerId := pyStrip (parts.getD 1 "")
    let dateStr := pyStrip (parts.getD 2 "")
    let valueStr := pyStrip (parts.getD 3 "")
    match (if dateStr.length = 14 then pyStrptime14 dateStr else none) with
    | none => .error (.valueError ("Could not parse reading date: " ++ dateStr))
    | some readingDate =>
      match pyDecimalParse valueStr with
      | none => .error (.valueError ("Invalid reading value: " ++ valueStr))
      | some readingValue =>
        .ok { mpan, meterSerial, meterType, registerId, readingDate, readingValue,
              readingType := "ACTUAL" }

/-- `Command.parse_trailer`: `record_count` is `int(parts[2])` when
field 2 exists and satisfies `isdigit`, else `0`.  (`int` itself raises
on `isdigit`-true characters outside category `Nd`, which the
surrounding handler would turn into a `ParsingError`.) -/
def parse_trailer (parts : List String) : Except ImportError TrailerData :=
  let p2 := parts.getD 2 ""
  if parts.length > 2 && pyIsDigitStr p2 then
    match pyIntOfDigits p2 with
    | none => .error (.valueError ("invalid literal for int() with base 10: " ++ p2))
    | some n => .ok ⟨parts.headD "", parts.get? 1, n⟩
  else
    .ok ⟨parts.headD "", parts.get? 1, 0⟩

/-! ## The context parser (`Command.parse_d0010_file`, lines 87-145).

The Python loop keeps the partially built `file_data` dict and the
three carried-context variables as locals; here they are one record
threaded through the fold. -/

/-- The parse state: the `file_data` dict under construction plus the
carried context (`current_mpan`, `current_meter_serial`,
`current_meter_type`). -/
structure ParseCtx where
  header : Option HeaderData
  readings : List ReadingData
  trailer : Option TrailerData
  currentMpan : Option String
  currentMeterSerial : Option String
  currentMeterType : Option String
deriving DecidableEq, Repr

/-- The state at the top of `parse_d0010_file`. -/
def initialParseCtx : ParseCtx :=
  ⟨none, [], none, none, none, none⟩

/-- Result of a successful `parse_d0010_file`: the `file_data` dict. -/
structure FileData where
  header : Option HeaderData
  readings : List ReadingData
  trailer : Option TrailerData
deriving DecidableEq, Repr

/-- The dispatch on `record_type` in the body of the line loop.  The
`if/elif` chain has no `else`: a record type other than the five known
tags falls through and leaves the state untouched.  A `030` record is
rejected when the carried mpan or serial is unset (Python's
`not current_mpan` is also true for an empty string, and the test is
kept verbatim even though the record parsers never store an empty
one). -/
def processRecord (recordType : String) (parts : List String) (ctx : ParseCtx) :
    Except ImportError ParseCtx :=
  if recordType = "ZHV" then
    .ok { ctx with header := some (parse_header parts) }
  else if recordType = "026" then
    match parse_mpan_record parts with
    | .error e => .error e
    | .ok mpan =>
      .ok { ctx with currentMpan := some mpan,
                     currentMeterSerial := none, currentMeterType := none }
  else if recordType = "028" then
    match parse_meter_record parts with
    | .error e => .error e
    | .ok st =>
      .ok { ctx with currentMeterSerial := some st.1, currentMeterType := some st.2 }
  else if recordType = "030" then
    match ctx.currentMpan, ctx.currentMeterSerial with
    | some mpan, some serial =>
      if mpan = "" || serial = "" then
        .error (.valueError "Reading record without preceding MPAN/meter data")
      else
        match parse_reading_record parts mpan serial ctx.currentMeterType with
        | .error e => .error e
        | .ok rd => .ok { ctx with readings := ctx.readings ++ [rd] }
    | _, _ => .error (.valueError "Reading record without preceding MPAN/meter data")
  else if recordType = "ZPT" then
    match parse_trailer parts with
    | .error e => .error e
    | .ok t => .ok { ctx with trailer := some t }
  else
    .ok ctx

/-- One iteration of the line loop: strip the line, skip it when blank,
otherwise split on `|` and dispatch; any failure is wrapped into a
`ParsingError` carrying the record type, the stripped raw line, the
source filename and the 1-based line number (the wrapped inner
exception survives only as the `ParsingError`'s cause and is dropped
here, as it is from the surfaced message). -/
def processLine (filename : String) (lineNumber : Nat) (rawLine : String)
    (ctx : ParseCtx) : Except ImportError ParseCtx :=
  let line := pyStrip rawLine
  if line = "" then .ok ctx
  else
    let parts := pySplit '|' line
    let recordType := parts.headD ""
    match processRecord recordType parts ctx with
    | .ok ctx2 => .ok ctx2
    | .error _ => .error (.parsingError recordType line filename lineNumber)

/-- The `for line_num, line in enumerate(file, 1)` loop: process lines
in order, abort on the first error. -/
def processLines (filename : String) : Nat → ParseCtx → List String →
    Except ImportError ParseCtx
  | _, ctx, [] => .ok ctx
  | lineNumber, ctx, l :: rest =>
    match processLine filename lineNumber l ctx with
    | .error e => .error e
    | .ok ctx2 => processLines filename (lineNumber + 1) ctx2 rest

/-- `Command.parse_d0010_file`, for a file already read as a list of
lines: run the loop from line 1, then reject the file when no reading
candidates were produced. -/
def parse_d0010_file (filename : String) (lines : List String) :
    Except ImportError FileData :=
  match processLines filename 1 initialParseCtx lines with
  | .error e => .error e
  | .ok ctx =>
    if ctx.readings = [] then
      .error (.invalidFormat "No readings found in file" (some filename) none none)
    else
      .ok ⟨ctx.header, ctx.readings, ctx.trailer⟩

/-! ## Persisted entities (`meter_readings/models.py`) and the store.

Rows are records; each table is a list of rows in insertion order.
Auto-increment primary keys are modelled by per-table counters (only
`FlowFile`, `MeterPoint` and `Meter` ids are ever referenced by the
pipeline, so `Reading` rows carry no id of their own). -/

/-- A `FlowFile` row (`imported_at` is set by the database and never
read by the pipeline, so it is omitted). -/
structure FlowFile where
  id : Nat
  filename : String
  fileReference : String
  recordCount : Nat
deriving DecidableEq, Repr

/-- A `MeterPoint` row. -/
structure MeterPoint where
  id : Nat
  mpan : String
deriving DecidableEq, Repr

/-- A `Meter` row.  `meterType` is kept as the `Optional[str]` the
loader passes in `defaults` (the parser never produces `none` for a
saved reading, since a `030` needs a preceding `028`, which always
sets the type). -/
structure Meter where
  id : Nat
  meterPointId : Nat
  serialNumber : String
  meterType : Option String
deriving DecidableEq, Repr

/-- A `Reading` row. -/
structure Reading where
  meterId : Nat
  flowFileId : Nat
  registerId : String
  readingDate : PyDateTime
  readingValue : PyDec
  readingType : String
deriving DecidableEq, Repr

/-- The database state. -/
structure DB where
  flowFiles : List FlowFile
  meterPoints : List MeterPoint
  meters : List Meter
  readings : List Reading
  nextFlowFileId : Nat
  nextMeterPointId : Nat
  nextMeterId : Nat
deriving DecidableEq, Repr

/-- A fresh store. -/
def emptyDB : DB := ⟨[], [], [], [], 0, 0, 0⟩

/-- `Reading.clean` (`models.py` lines 157-159): rejects a strictly
negative `reading_value` with a `ValidationError`.  `full_clean` — and
hence this check — is invoked by forms and by the admin, but not by
`QuerySet.create`/`get_or_create`. -/
def reading_clean (readingValue : PyDec) : Except String Unit :=
  if readingValue.isNegVal then .error "Reading value cannot be negative"
  else .ok ()

/-- `MeterPoint.objects.get_or_create(mpan=...)`: find the row with
this mpan (unique by constraint) or append a fresh one. -/
def getOrCreateMeterPoint (db : DB) (mpan : String) : DB × MeterPoint :=
  match db.meterPoints.find? (fun mp => decide (mp.mpan = mpan)) with
  | some mp => (db, mp)
  | none =>
    let mp : MeterPoint := ⟨db.nextMeterPointId, mpan⟩
    ({ db with meterPoints := db.meterPoints ++ [mp],
               nextMeterPointId := db.nextMeterPointId + 1 }, mp)

/-- `Meter.objects.get_or_create(meter_point=..., serial_number=...,
defaults={"meter_type": ...})`: find the row with this
`(meter_point, serial_number)` key (unique by constraint) or append a
fresh one with the default meter type.  When the row exists, the
defaults — in particular the meter type — are not applied. -/
def getOrCreateMeter (db : DB) (meterPointId : Nat) (serialNumber : String)
    (meterType : Option String) : DB × Meter :=
  match db.meters.find?
      (fun m => decide ((m.meterPointId, m.serialNumber) = (meterPointId, serialNumber))) with
  | some m => (db, m)
  | none =>
    let m : Meter := ⟨db.nextMeterId, meterPointId, serialNumber, meterType⟩
    ({ db with meters := db.meters ++ [m], nextMeterId := db.nextMeterId + 1 }, m)

/-- `Reading.objects.get_or_create(meter=..., register_id=...,
reading_date=..., defaults={...})`: find the row with this
`(meter, register_id, reading_date)` key (unique by constraint) or
append a fresh one built from the defaults.  Returns the `created`
flag; when the row exists its `flow_file` and `reading_value` are left
untouched. -/
def getOrCreateReading (db : DB) (meterId : Nat) (registerId : String)
    (readingDate : PyDateTime) (flowFileId : Nat) (readingValue : PyDec)
    (readingType : String) : DB × Bool :=
  match db.readings.find?
      (fun r => decide ((r.meterId, r.registerId, r.readingDate)
        = (meterId, registerId, readingDate))) with
  | some _ => (db, false)
  | none =>
    ({ db with readings :=
        db.readings ++ [⟨meterId, flowFileId, registerId, readingDate,
                         readingValue, readingType⟩] }, true)

/-- The body of the loop in `Command.save_file_data` for one reading
candidate: resolve/create the meter point, then the meter, then the
reading; the returned flag is `created`. -/
def saveReading (db : DB) (flowFileId : Nat) (rd : ReadingData) : DB × Bool :=
  let s1 := getOrCreateMeterPoint db rd.mpan
  let s2 := getOrCreateMeter s1.1 s1.2.id rd.meterSerial rd.meterType
  getOrCreateReading s2.1 s2.2.id rd.registerId rd.readingDate flowFileId
    rd.readingValue rd.readingType

/-- The loop of `Command.save_file_data`: process candidates in parsed
order, counting only genuinely created readings. -/
def saveReadingsLoop (db : DB) (flowFileId : Nat) : List ReadingData → DB × Nat
  | [] => (db, 0)
  | rd :: rest =>
    let s := saveReading db flowFileId rd
    let t := saveReadingsLoop s.1 flowFileId rest
    (t.1, (if s.2 then 1 else 0) + t.2)

/-- `Command.save_file_data`: create the `FlowFile` row with a
provisional count of 0, run the loop, then write the final imported
count back to that row.  (The `try/except` around the loop only
re-wraps store-level failures, which the list model cannot produce.) -/
def save_file_data (db : DB) (fd : FileData) (filename : String) : DB × Nat :=
  let ffId := db.nextFlowFileId
  let fileRef := match fd.header with | some h => h.fileReference | none => ""
  let db0 : DB := { db with
    flowFiles := db.flowFiles ++ [⟨ffId, filename, fileRef, 0⟩],
    nextFlowFileId := ffId + 1 }
  let t := saveReadingsLoop db0 ffId fd.readings
  let db1 : DB := { t.1 with
    flowFiles := t.1.flowFiles.map
      (fun f => if f.id = ffId then { f with recordCount := t.2 } else f) }
  (db1, t.2)

/-! ## The loader entry point (`Command.import_file`) -/

/-- The filesystem visible to the command: a map from path to the list
of lines of the file at that path (`none` models
`os.path.exists(file_path)` being false). -/
def fsLookup (fs : List (String × List String)) (p : String) : Option (List String) :=
  (fs.find? (fun e => decide (e.1 = p))).map (fun e => e.2)

/-- `Command.import_file`: existence check, duplicate-filename
short-circuit, parse, then either the dry-run count or the
transactional save.  An error return leaves the store untouched
(`transaction.atomic` plus the fact that nothing is written before the
transaction opens). -/
def import_file (fs : List (String × List String)) (db : DB) (filePath : String)
    (dryRun : Bool) : Except ImportError (DB × Nat) :=
  match fsLookup fs filePath with
  | none => .error (.commandError ("File not found: " ++ filePath))
  | some lines =>
    let filename := basename filePath
    if db.flowFiles.any (fun f => decide (f.filename = filename)) then
      .error (.duplicateFile "File has already been imported" filename)
    else
      match parse_d0010_file filename lines with
      | .error e => .error e
      | .ok fd =>
        if dryRun then .ok (db, fd.readings.length)
        else .ok (save_file_data db fd filename)

/-! ## Specification view of the store.

A reading candidate is identified across files by the quadruple
`(mpan, meter serial, register id, reading date)`; inside the store the
first two components are resolved, through the unique keys of
`MeterPoint` and `Meter`, to the meter row that the spec's triple
`(meter, registerId, readingDateTime)` names. -/

/-- The business key of a reading. -/
structure Quad where
  mpan : String
  serial : String
  registerId : String
  readingDate : PyDateTime
deriving DecidableEq, Repr

/-- The key carried by a parsed reading candidate. -/
def ReadingData.quad (rd : ReadingData) : Quad :=
  ⟨rd.mpan, rd.meterSerial, rd.registerId, rd.readingDate⟩

/-- The meter row id that the pair `(mpan, serial)` names in the store,
through the same lookups the loader performs. -/
def resolveMeterId (db : DB) (mpan serial : String) : Option Nat :=
  match db.meterPoints.find? (fun mp => decide (mp.mpan = mpan)) with
  | none => none
  | some mp =>
    match db.meters.find?
        (fun m => decide ((m.meterPointId, m.serialNumber) = (mp.id, serial))) with
    | none => none
    | some m => some m.id

/-- The reading rows of the store keyed by a quad. -/
def quadRows (db : DB) (q : Quad) : List Reading :=
  match resolveMeterId db q.mpan q.serial with
  | none => []
  | some mid =>
    db.readings.filter
      (fun r => decide ((r.meterId, r.registerId, r.readingDate)
        = (mid, q.registerId, q.readingDate)))

/-- Provenance and value of the rows keyed by a quad. -/
def quadInfo (db : DB) (q : Quad) : List (Nat × PyDec) :=
  (quadRows db q).map (fun r => (r.flowFileId, r.readingValue))

/-- Whether the store already holds a reading with this key. -/
def hasQuad (db : DB) (q : Quad) : Bool :=
  !(quadRows db q).isEmpty

/-- The quads of a candidate list that are new relative to a
presence predicate, kept in first-occurrence order without
duplicates — the keys the loader's loop genuinely creates. -/
def newKeys (present : Quad → Bool) : List Quad → List Quad
  | [] => []
  | q :: qs =>
    if present q then newKeys present qs
    else q :: newKeys (fun x => present x || decide (x = q)) qs

/-- What one run of the loop appends to the rows keyed by `q`:
nothing when the key was already present, otherwise one row carrying
the current flow file's id and the value of the first candidate with
that key. -/
def loopAppend (present : Bool) (flowFileId : Nat) (rds : List ReadingData)
    (q : Quad) : List (Nat × PyDec) :=
  if present then []
  else
    match rds.find? (fun rd => decide (rd.quad = q)) with
    | some rd => [(flowFileId, rd.readingValue)]
    | none => []

/-- Well-formedness of the store: exactly the uniqueness constraints
`models.py` declares (`filename`, `mpan`, `(meter_point, serial)`,
`(meter, register_id, reading_date)` — filename uniqueness is not
needed by any proof and is omitted), uniqueness of primary keys, and
the bookkeeping facts that every assigned id is below its table's
counter. -/
def wfDB (db : DB) : Prop :=
  (db.flowFiles.map FlowFile.id).Nodup ∧
  (∀ f ∈ db.flowFiles, f.id < db.nextFlowFileId) ∧
  (db.meterPoints.map MeterPoint.id).Nodup ∧
  (db.meterPoints.map MeterPoint.mpan).Nodup ∧
  (∀ mp ∈ db.meterPoints, mp.id < db.nextMeterPointId) ∧
  (db.meters.map Meter.id).Nodup ∧
  (db.meters.map (fun m => (m.meterPointId, m.serialNumber))).Nodup ∧
  (∀ m ∈ db.meters, m.id < db.nextMeterId ∧ m.meterPointId < db.nextMeterPointId) ∧
  (db.readings.map (fun r => (r.meterId, r.registerId, r.readingDate))).Nodup ∧
  (∀ r ∈ db.readings, r.meterId < db.nextMeterId)

instance (db : DB) : Decidable (wfDB db) := by
  unfold wfDB; infer_instance

/-! ## Generic lemmas -/

/-- Under a nodup key map, the loader's `find?` by the key of a member
returns exactly that member. -/
theorem find?_eq_of_mem_of_nodup {α κ : Type} [DecidableEq κ] (key : α → κ)
    {l : List α} (h : (l.map key).Nodup) {x : α} (hx : x ∈ l) :
    l.find? (fun y => decide (key y = key x)) = some x := by
  induction l with
  | nil => cases hx
  | cons a t ih =>
    rw [List.map_cons, List.nodup_cons] at h
    rcases List.mem_cons.mp hx with rfl | hxt
    · exact List.find?_cons_of_pos _ (by simp)
    · have hne : key a ≠ key x := by
        intro he
        exact h.1 (he ▸ List.mem_map_of_mem key hxt)
      rw [List.find?_cons_of_neg _ (by simpa using hne)]
      exact ih h.2 hxt

/-- `newKeys` only looks at the presence predicate pointwise. -/
theorem newKeys_congr (l : List Quad) : ∀ (p q : Quad → Bool),
    (∀ x, p x = q x) → newKeys p l = newKeys q l := by
  induction l with
  | nil => intro p q h; rfl
  | cons a t ih =>
    intro p q h
    simp only [newKeys, h a]
    by_cases ha : q a = true
    · simp only [ha, if_true]
      exact ih p q h
    · simp only [ha, if_false]
      exact congrArg (a :: ·) (ih _ _ (fun x => by rw [h x]))

/-- Membership in `newKeys`: the quads of the list that the predicate
does not already cover. -/
theorem mem_newKeys (k : Quad) (l : List Quad) : ∀ (p : Quad → Bool),
    (k ∈ newKeys p l ↔ k ∈ l ∧ p k = false) := by
  induction l with
  | nil => intro p; simp [newKeys]
  | cons a t ih =>
    intro p
    simp only [newKeys]
    by_cases ha : p a = true
    · rw [if_pos ha, ih p, List.mem_cons]
      constructor
      · rintro ⟨hm, hp⟩; exact ⟨Or.inr hm, hp⟩
      · rintro ⟨hm | hm, hp⟩
        · rw [hm] at hp; rw [ha] at hp; cases hp
        · exact ⟨hm, hp⟩
    · have ha2 : p a = false := by revert ha; cases p a <;> simp
      rw [if_neg ha, List.mem_cons, List.mem_cons, ih]
      by_cases hk : k = a
      · subst hk; simp [ha2]
      · simp [hk]

/-- `newKeys` never lists a key twice. -/
theorem newKeys_nodup (l : List Quad) : ∀ (p : Quad → Bool),
    (newKeys p l).Nodup := by
  induction l with
  | nil => intro p; exact List.nodup_nil
  | cons a t ih =>
    intro p
    simp only [newKeys]
    by_cases ha : p a = true
    · rw [if_pos ha]; exact ih p
    · rw [if_neg ha, List.nodup_cons]
      refine ⟨fun hm => ?_, ih _⟩
      have h2 := (mem_newKeys a t _).mp hm
      simp at h2

/-- Presence of a key is nonemptiness of its provenance list. -/
theorem hasQuad_eq (db : DB) (q : Quad) :
    hasQuad db q = !(quadInfo db q).isEmpty := by
  simp only [hasQuad, quadInfo]
  cases quadRows db q <;> rfl

/-- Splitting the line loop at an append. -/
theorem processLines_append (filename : String) (k : Nat) (ctx : ParseCtx)
    (l1 l2 : List String) :
    processLines filename k ctx (l1 ++ l2)
      = match processLines filename k ctx l1 with
        | .error e => .error e
        | .ok ctx2 => processLines filename (k + l1.length) ctx2 l2 := by
  induction l1 generalizing k ctx with
  | nil => simp [processLines]
  | cons a t ih =>
    simp only [List.cons_append, processLines]
    cases processLine filename k a ctx with
    | error e => rfl
    | ok ctx2 =>
      dsimp only
      rw [List.append_eq, ih (k + 1) ctx2]
      cases processLines filename (k + 1) ctx2 t with
      | error e => rfl
      | ok c3 =>
        dsimp only
        have h2 : k + 1 + t.length = k + (a :: t).length := by
          simp only [List.length_cons]; omega
        rw [h2]

/-- A meter id at or above every reading's meter id matches no reading
row. -/
theorem reading_find?_none_of_lt (rs : List Reading) (n : Nat) (reg : String)
    (d : PyDateTime) (h : ∀ r ∈ rs, r.meterId < n) :
    rs.find? (fun r => decide ((r.meterId, r.registerId, r.readingDate)
      = (n, reg, d))) = none := by
  rw [List.find?_eq_none]
  intro r hr
  simp only [decide_eq_true_eq, Prod.mk.injEq, not_and]
  intro h1
  exact absurd h1 (Nat.ne_of_lt (h r hr))

/-- Same fact for `filter`. -/
theorem reading_filter_nil_of_lt (rs : List Reading) (n : Nat) (reg : String)
    (d : PyDateTime) (h : ∀ r ∈ rs, r.meterId < n) :
    rs.filter (fun r => decide ((r.meterId, r.registerId, r.readingDate)
      = (n, reg, d))) = [] := by
  rw [List.filter_eq_nil_iff]
  intro r hr
  simp only [decide_eq_true_eq, Prod.mk.injEq, not_and]
  intro h1
  exact absurd h1 (Nat.ne_of_lt (h r hr))

/-- A meter-point id at or above every meter's meter-point id matches no
meter row. -/
theorem meter_find?_none_of_lt (ms : List Meter) (n : Nat) (s : String)
    (h : ∀ m ∈ ms, m.meterPointId < n) :
    ms.find? (fun m => decide ((m.meterPointId, m.serialNumber) = (n, s))) = none := by
  rw [List.find?_eq_none]
  intro m hm
  simp only [decide_eq_true_eq, Prod.mk.injEq, not_and]
  intro h1
  exact absurd h1 (Nat.ne_of_lt (h m hm))

@[simp] theorem ReadingData.quad_mpan (rd : ReadingData) : rd.quad.mpan = rd.mpan := rfl

@[simp] theorem ReadingData.quad_serial (rd : ReadingData) : rd.quad.serial = rd.meterSerial := rfl

@[simp] theorem ReadingData.quad_registerId (rd : ReadingData) : rd.quad.registerId = rd.registerId := rfl

@[simp] theorem ReadingData.quad_readingDate (rd : ReadingData) : rd.quad.readingDate = rd.readingDate := rfl

/-- Full characterization of one iteration of the save loop: the
`created` flag is presence-negation of the candidate's key, the flow
file table is untouched, the three entity tables only grow at the end,
well-formedness is preserved, and the rows keyed by any quad gain
exactly one row — carrying this flow file's id and this candidate's
value — when the candidate's key was absent and `q` is that key, and
nothing otherwise. -/
theorem saveReading_spec (db : DB) (ffId : Nat) (rd : ReadingData)
    (hwf : wfDB db) (db2 : DB) (c : Bool)
    (h : saveReading db ffId rd = (db2, c)) :
    c = !hasQuad db rd.quad ∧
    db2.flowFiles = db.flowFiles ∧
    db2.nextFlowFileId = db.nextFlowFileId ∧
    (∃ t, db2.meterPoints = db.meterPoints ++ t) ∧
    (∃ t, db2.meters = db.meters ++ t) ∧
    (∃ t, db2.readings = db.readings ++ t) ∧
    wfDB db2 ∧
    ∀ q, quadInfo db2 q = quadInfo db q ++
      (if hasQuad db rd.quad = false ∧ q = rd.quad
       then [(ffId, rd.readingValue)] else []) := by
  obtain ⟨hff, hffb, hmpid, hmpan, hmpb, hmid, hmkey, hmb, hrkey, hrb⟩ := hwf
  simp only [saveReading] at h
  cases hmp : db.meterPoints.find? (fun mp => decide (mp.mpan = rd.mpan)) with
  | some mp =>
    have e1 : getOrCreateMeterPoint db rd.mpan = (db, mp) := by
      simp only [getOrCreateMeterPoint, hmp]
    rw [e1] at h
    dsimp only at h
    have hmpan_eq : mp.mpan = rd.mpan := by simpa using List.find?_some hmp
    have hmp_mem : mp ∈ db.meterPoints := List.mem_of_find?_eq_some hmp
    cases hm : db.meters.find?
        (fun m => decide ((m.meterPointId, m.serialNumber) = (mp.id, rd.meterSerial))) with
    | some m =>
      have e2 : getOrCreateMeter db mp.id rd.meterSerial rd.meterType = (db, m) := by
        simp only [getOrCreateMeter, hm]
      rw [e2] at h
      dsimp only at h
      have hmkey_eq : (m.meterPointId, m.serialNumber) = (mp.id, rd.meterSerial) := by
        simpa using List.find?_some hm
      have hm_mem : m ∈ db.meters := List.mem_of_find?_eq_some hm
      have hres : resolveMeterId db rd.mpan rd.meterSerial = some m.id := by
        simp only [resolveMeterId, hmp, hm]
      cases hr : db.readings.find?
          (fun r => decide ((r.meterId, r.registerId, r.readingDate)
            = (m.id, rd.registerId, rd.readingDate))) with
      | some r0 =>
        have e3 : getOrCreateReading db m.id rd.registerId rd.readingDate ffId
            rd.readingValue rd.readingType = (db, false) := by
          simp only [getOrCreateReading, hr]
        rw [e3] at h
        injection h with h1 h2
        subst h1; subst h2
        have hqt : hasQuad db rd.quad = true := by
          simp only [hasQuad, quadRows, ReadingData.quad_mpan, ReadingData.quad_serial,
            ReadingData.quad_registerId, ReadingData.quad_readingDate, hres]
          rw [List.isEmpty_eq_false.mpr (List.ne_nil_of_mem
            (List.mem_filter.mpr ⟨List.mem_of_find?_eq_some hr, List.find?_some hr⟩))]
          rfl
        refine ⟨by rw [hqt]; rfl, rfl, rfl, ⟨[], by simp⟩, ⟨[], by simp⟩, ⟨[], by simp⟩,
          ⟨hff, hffb, hmpid, hmpan, hmpb, hmid, hmkey, hmb, hrkey, hrb⟩, ?_⟩
        intro q
        simp [hqt]
      | none =>
        have e3 : getOrCreateReading db m.id rd.registerId rd.readingDate ffId
            rd.readingValue rd.readingType
            = ({ db with
                  readings := db.readings ++ [⟨m.id, ffId, rd.registerId, rd.readingDate, rd.readingValue, rd.readingType⟩] },
               true) := by
          simp only [getOrCreateReading, hr]
        rw [e3] at h
        injection h with h1 h2
        subst h1; subst h2
        have hqf : hasQuad db rd.quad = false := by
          simp only [hasQuad, quadRows, ReadingData.quad_mpan, ReadingData.quad_serial,
            ReadingData.quad_registerId, ReadingData.quad_readingDate, hres]
          rw [List.filter_eq_nil_iff.mpr (fun r hrm => List.find?_eq_none.mp hr r hrm)]
          rfl
        refine ⟨by rw [hqf]; rfl, rfl, rfl, ⟨[], by simp⟩, ⟨[], by simp⟩, ⟨_, rfl⟩,
          ⟨hff, hffb, hmpid, hmpan, hmpb, hmid, hmkey, hmb, ?_, ?_⟩, ?_⟩
        · rw [List.map_append, List.nodup_append]
          refine ⟨hrkey, List.nodup_singleton _, ?_⟩
          simp only [List.map_singleton, List.disjoint_singleton]
          intro hmem
          rcases List.mem_map.mp hmem with ⟨r, hrm, hkey⟩
          exact absurd hkey (by simpa using List.find?_eq_none.mp hr r hrm)
        · intro r hrm
          rcases List.mem_append.mp hrm with h1 | h1
          · exact hrb r h1
          · rw [List.mem_singleton.mp h1]
            exact (hmb m hm_mem).1
        · intro q
          by_cases hq : q = rd.quad
          · subst hq
            rw [if_pos ⟨hqf, rfl⟩]
            simp only [quadInfo, quadRows, ReadingData.quad_mpan, ReadingData.quad_serial,
              ReadingData.quad_registerId, ReadingData.quad_readingDate, resolveMeterId,
              hmp, hm]
            rw [List.filter_append,
              List.filter_eq_nil_iff.mpr (fun r hrm => List.find?_eq_none.mp hr r hrm)]
            simp
          · rw [if_neg (fun hand => hq hand.2), List.append_nil]
            simp only [quadInfo, quadRows, resolveMeterId]
            cases hmpq : db.meterPoints.find? (fun x => decide (x.mpan = q.mpan)) with
            | none => rfl
            | some mpq =>
              dsimp only
              cases hmq : db.meters.find?
                  (fun x => decide ((x.meterPointId, x.serialNumber) = (mpq.id, q.serial))) with
              | none => rfl
              | some mq =>
                dsimp only
                rw [List.filter_append]
                have hnil : List.filter
                    (fun r => decide ((r.meterId, r.registerId, r.readingDate)
                      = (mq.id, q.registerId, q.readingDate)))
                    [(⟨m.id, ffId, rd.registerId, rd.readingDate, rd.readingValue, rd.readingType⟩ : Reading)] = [] := by
                  rw [List.filter_eq_nil_iff]
                  intro r hrm
                  rw [List.mem_singleton.mp hrm]
                  intro hdec
                  have hkey := of_decide_eq_true hdec
                  simp only [Prod.mk.injEq] at hkey
                  obtain ⟨hid, hreg, hdate⟩ := hkey
                  have hmq_mem : mq ∈ db.meters := List.mem_of_find?_eq_some hmq
                  have hmq_key : (mq.meterPointId, mq.serialNumber) = (mpq.id, q.serial) := by
                    simpa using List.find?_some hmq
                  have hmeq : m = mq :=
                    List.inj_on_of_nodup_map hmid hm_mem hmq_mem hid
                  have hmpq_mem : mpq ∈ db.meterPoints := List.mem_of_find?_eq_some hmpq
                  have hmpq_mpan : mpq.mpan = q.mpan := by
                    simpa using List.find?_some hmpq
                  simp only [Prod.mk.injEq] at hmkey_eq hmq_key
                  have hmp_eq : mp = mpq := by
                    apply List.inj_on_of_nodup_map hmpid hmp_mem hmpq_mem
                    rw [← hmkey_eq.1, ← hmq_key.1, hmeq]
                  apply hq
                  have hqm : q.mpan = rd.mpan := by
                    rw [← hmpq_mpan, ← hmp_eq, hmpan_eq]
                  have hqs : q.serial = rd.meterSerial := by
                    rw [← hmq_key.2, ← hmeq, hmkey_eq.2]
                  cases q with
                  | mk qm qs qr qd =>
                    simp only [ReadingData.quad, Quad.mk.injEq]
                    simp only at hqm hqs hreg hdate
                    exact ⟨hqm, hqs, hreg.symm, hdate.symm⟩
                rw [hnil, List.append_nil]
    | none =>
      have e2 : getOrCreateMeter db mp.id rd.meterSerial rd.meterType
          = ({ db with
                meters := db.meters ++ [⟨db.nextMeterId, mp.id, rd.meterSerial, rd.meterType⟩],
                nextMeterId := db.nextMeterId + 1 },
             ⟨db.nextMeterId, mp.id, rd.meterSerial, rd.meterType⟩) := by
        simp only [getOrCreateMeter, hm]
      rw [e2] at h
      dsimp only at h
      have hrnone : db.readings.find?
          (fun r => decide ((r.meterId, r.registerId, r.readingDate)
            = (db.nextMeterId, rd.registerId, rd.readingDate))) = none :=
        reading_find?_none_of_lt db.readings db.nextMeterId rd.registerId
          rd.readingDate hrb
      have e3 : getOrCreateReading
          ({ db with
              meters := db.meters ++ [⟨db.nextMeterId, mp.id, rd.meterSerial, rd.meterType⟩],
              nextMeterId := db.nextMeterId + 1 })
          db.nextMeterId rd.registerId rd.readingDate ffId
          rd.readingValue rd.readingType
          = ({ db with
                meters := db.meters ++ [⟨db.nextMeterId, mp.id, rd.meterSerial, rd.meterType⟩],
                readings := db.readings ++ [⟨db.nextMeterId, ffId, rd.registerId, rd.readingDate, rd.readingValue, rd.readingType⟩],
                nextMeterId := db.nextMeterId + 1 },
             true) := by
        simp only [getOrCreateReading, hrnone]
      rw [e3] at h
      injection h with h1 h2
      subst h1; subst h2
      have hqf : hasQuad db rd.quad = false := by
        simp only [hasQuad, quadRows, ReadingData.quad_mpan, ReadingData.quad_serial,
          resolveMeterId, hmp, hm]
        rfl
      refine ⟨by rw [hqf]; rfl, rfl, rfl, ⟨[], by simp⟩, ⟨_, rfl⟩, ⟨_, rfl⟩,
        ⟨hff, hffb, hmpid, hmpan, hmpb, ?_, ?_, ?_, ?_, ?_⟩, ?_⟩
      · rw [List.map_append, List.nodup_append]
        refine ⟨hmid, List.nodup_singleton _, ?_⟩
        simp only [List.map_singleton, List.disjoint_singleton]
        intro hmem
        rcases List.mem_map.mp hmem with ⟨x, hxm, hkey⟩
        exact absurd hkey (Nat.ne_of_lt (hmb x hxm).1)
      · rw [List.map_append, List.nodup_append]
        refine ⟨hmkey, List.nodup_singleton _, ?_⟩
        simp only [List.map_singleton, List.disjoint_singleton]
        intro hmem
        rcases List.mem_map.mp hmem with ⟨x, hxm, hkey⟩
        exact absurd hkey (by simpa using List.find?_eq_none.mp hm x hxm)
      · intro x hxm
        rcases List.mem_append.mp hxm with h1 | h1
        · exact ⟨Nat.lt_succ_of_lt (hmb x h1).1, (hmb x h1).2⟩
        · rw [List.mem_singleton.mp h1]
          exact ⟨Nat.lt_succ_self _, hmpb mp hmp_mem⟩
      · rw [List.map_append, List.nodup_append]
        refine ⟨hrkey, List.nodup_singleton _, ?_⟩
        simp only [List.map_singleton, List.disjoint_singleton]
        intro hmem
        rcases List.mem_map.mp hmem with ⟨x, hxm, hkey⟩
        have hlt := hrb x hxm
        have h2 : x.meterId = db.nextMeterId := congrArg Prod.fst hkey
        omega
      · intro x hxm
        rcases List.mem_append.mp hxm with h1 | h1
        · exact Nat.lt_succ_of_lt (hrb x h1)
        · rw [List.mem_singleton.mp h1]
          exact Nat.lt_succ_self _
      · intro q
        by_cases hq : q = rd.quad
        · subst hq
          rw [if_pos ⟨hqf, rfl⟩]
          simp only [quadInfo, quadRows, ReadingData.quad_mpan, ReadingData.quad_serial,
            ReadingData.quad_registerId, ReadingData.quad_readingDate,
            resolveMeterId, hmp, List.find?_append, hm, Option.none_or]
          rw [List.find?_cons_of_pos _ (by simp)]
          dsimp only
          rw [List.filter_append,
            reading_filter_nil_of_lt db.readings db.nextMeterId rd.registerId
              rd.readingDate hrb]
          simp
        · rw [if_neg (fun hand => hq hand.2), List.append_nil]
          simp only [quadInfo, quadRows, resolveMeterId]
          cases hmpq : db.meterPoints.find? (fun x => decide (x.mpan = q.mpan)) with
          | none => rfl
          | some mpq =>
            dsimp only
            have hmpq_mem : mpq ∈ db.meterPoints := List.mem_of_find?_eq_some hmpq
            have hmpq_mpan : mpq.mpan = q.mpan := by simpa using List.find?_some hmpq
            rw [List.find?_append]
            cases hmq : db.meters.find?
                (fun x => decide ((x.meterPointId, x.serialNumber) = (mpq.id, q.serial))) with
            | some mq =>
              simp only [Option.or]
              have hmq_mem : mq ∈ db.meters := List.mem_of_find?_eq_some hmq
              rw [List.filter_append]
              have hnil : List.filter
                  (fun r => decide ((r.meterId, r.registerId, r.readingDate)
                    = (mq.id, q.registerId, q.readingDate)))
                  [(⟨db.nextMeterId, ffId, rd.registerId, rd.readingDate, rd.readingValue, rd.readingType⟩ : Reading)] = [] := by
                rw [List.filter_eq_nil_iff]
                intro r hrm
                rw [List.mem_singleton.mp hrm]
                intro hdec
                have hkey := of_decide_eq_true hdec
                have h2 : db.nextMeterId = mq.id := congrArg Prod.fst hkey
                have hlt := (hmb mq hmq_mem).1
                omega
              rw [hnil, List.append_nil]
            | none =>
              rw [Option.none_or]
              cases hkeydec : decide ((mp.id, rd.meterSerial) = (mpq.id, q.serial)) with
              | true =>
                rw [List.find?_cons_of_pos _ (by exact hkeydec)]
                dsimp only
                have hkey := of_decide_eq_true hkeydec
                simp only [Prod.mk.injEq] at hkey
                have hmp_eq : mp = mpq :=
                  List.inj_on_of_nodup_map hmpid hmp_mem hmpq_mem hkey.1
                rw [List.filter_append,
                  reading_filter_nil_of_lt db.readings db.nextMeterId q.registerId
                    q.readingDate hrb]
                have hnil : List.filter
                    (fun r => decide ((r.meterId, r.registerId, r.readingDate)
                      = (db.nextMeterId, q.registerId, q.readingDate)))
                    [(⟨db.nextMeterId, ffId, rd.registerId, rd.readingDate, rd.readingValue, rd.readingType⟩ : Reading)] = [] := by
                  rw [List.filter_eq_nil_iff]
                  intro r hrm
                  rw [List.mem_singleton.mp hrm]
                  intro hdec
                  have hkey2 := of_decide_eq_true hdec
                  simp only [Prod.mk.injEq] at hkey2
                  apply hq
                  cases q with
                  | mk qm qs qr qd =>
                    simp only [ReadingData.quad, Quad.mk.injEq]
                    simp only at hmpq_mpan hkey hkey2
                    exact ⟨by rw [← hmpq_mpan, ← hmp_eq, hmpan_eq],
                      hkey.2.symm, hkey2.2.1.symm, hkey2.2.2.symm⟩
                rw [hnil]
                rfl
              | false =>
                rw [List.find?_cons_of_neg _ ?_, List.find?_nil]
                intro hc
                have hc2 : decide ((mp.id, rd.meterSerial) = (mpq.id, q.serial)) = true :=
                  decide_eq_true (of_decide_eq_true hc)
                rw [hkeydec] at hc2
                cases hc2
  | none =>
    have e1 : getOrCreateMeterPoint db rd.mpan
        = ({ db with
              meterPoints := db.meterPoints ++ [⟨db.nextMeterPointId, rd.mpan⟩],
              nextMeterPointId := db.nextMeterPointId + 1 },
           ⟨db.nextMeterPointId, rd.mpan⟩) := by
      simp only [getOrCreateMeterPoint, hmp]
    rw [e1] at h
    dsimp only at h
    have hmnone : db.meters.find?
        (fun m => decide ((m.meterPointId, m.serialNumber)
          = (db.nextMeterPointId, rd.meterSerial))) = none :=
      meter_find?_none_of_lt db.meters db.nextMeterPointId rd.meterSerial
        (fun m hm => (hmb m hm).2)
    have e2 : getOrCreateMeter
        ({ db with
            meterPoints := db.meterPoints ++ [⟨db.nextMeterPointId, rd.mpan⟩],
            nextMeterPointId := db.nextMeterPointId + 1 })
        db.nextMeterPointId rd.meterSerial rd.meterType
        = ({ db with
              meterPoints := db.meterPoints ++ [⟨db.nextMeterPointId, rd.mpan⟩],
              meters := db.meters ++ [⟨db.nextMeterId, db.nextMeterPointId, rd.meterSerial, rd.meterType⟩],
              nextMeterPointId := db.nextMeterPointId + 1,
              nextMeterId := db.nextMeterId + 1 },
           ⟨db.nextMeterId, db.nextMeterPointId, rd.meterSerial, rd.meterType⟩) := by
      simp only [getOrCreateMeter, hmnone]
    rw [e2] at h
    dsimp only at h
    have hrnone : db.readings.find?
        (fun r => decide ((r.meterId, r.registerId, r.readingDate)
          = (db.nextMeterId, rd.registerId, rd.readingDate))) = none :=
      reading_find?_none_of_lt db.readings db.nextMeterId rd.registerId
        rd.readingDate hrb
    have e3 : getOrCreateReading
        ({ db with
            meterPoints := db.meterPoints ++ [⟨db.nextMeterPointId, rd.mpan⟩],
            meters := db.meters ++ [⟨db.nextMeterId, db.nextMeterPointId, rd.meterSerial, rd.meterType⟩],
            nextMeterPointId := db.nextMeterPointId + 1,
            nextMeterId := db.nextMeterId + 1 })
        db.nextMeterId rd.registerId rd.readingDate ffId
        rd.readingValue rd.readingType
        = ({ db with
              meterPoints := db.meterPoints ++ [⟨db.nextMeterPointId, rd.mpan⟩],
              meters := db.meters ++ [⟨db.nextMeterId, db.nextMeterPointId, rd.meterSerial, rd.meterType⟩],
              readings := db.readings ++ [⟨db.nextMeterId, ffId, rd.registerId, rd.readingDate, rd.readingValue, rd.readingType⟩],
              nextMeterPointId := db.nextMeterPointId + 1,
              nextMeterId := db.nextMeterId + 1 },
           true) := by
      simp only [getOrCreateReading, hrnone]
    rw [e3] at h
    injection h with h1 h2
    subst h1; subst h2
    have hqf : hasQuad db rd.quad = false := by
      simp only [hasQuad, quadRows, ReadingData.quad_mpan, ReadingData.quad_serial,
        resolveMeterId, hmp]
      rfl
    refine ⟨by rw [hqf]; rfl, rfl, rfl, ⟨_, rfl⟩, ⟨_, rfl⟩, ⟨_, rfl⟩,
      ⟨hff, hffb, ?_, ?_, ?_, ?_, ?_, ?_, ?_, ?_⟩, ?_⟩
    · rw [List.map_append, List.nodup_append]
      refine ⟨hmpid, List.nodup_singleton _, ?_⟩
      simp only [List.map_singleton, List.disjoint_singleton]
      intro hmem
      rcases List.mem_map.mp hmem with ⟨x, hxm, hkey⟩
      exact absurd hkey (Nat.ne_of_lt (hmpb x hxm))
    · rw [List.map_append, List.nodup_append]
      refine ⟨hmpan, List.nodup_singleton _, ?_⟩
      simp only [List.map_singleton, List.disjoint_singleton]
      intro hmem
      rcases List.mem_map.mp hmem with ⟨x, hxm, hkey⟩
      exact absurd hkey (by simpa using List.find?_eq_none.mp hmp x hxm)
    · intro x hxm
      rcases List.mem_append.mp hxm with h1 | h1
      · exact Nat.lt_succ_of_lt (hmpb x h1)
      · rw [List.mem_singleton.mp h1]
        exact Nat.lt_succ_self _
    · rw [List.map_append, List.nodup_append]
      refine ⟨hmid, List.nodup_singleton _, ?_⟩
      simp only [List.map_singleton, List.disjoint_singleton]
      intro hmem
      rcases List.mem_map.mp hmem with ⟨x, hxm, hkey⟩
      exact absurd hkey (Nat.ne_of_lt (hmb x hxm).1)
    · rw [List.map_append, List.nodup_append]
      refine ⟨hmkey, List.nodup_singleton _, ?_⟩
      simp only [List.map_singleton, List.disjoint_singleton]
      intro hmem
      rcases List.mem_map.mp hmem with ⟨x, hxm, hkey⟩
      have h2 : x.meterPointId = db.nextMeterPointId := congrArg Prod.fst hkey
      have hlt := (hmb x hxm).2
      omega
    · intro x hxm
      rcases List.mem_append.mp hxm with h1 | h1
      · exact ⟨Nat.lt_succ_of_lt (hmb x h1).1, Nat.lt_succ_of_lt (hmb x h1).2⟩
      · rw [List.mem_singleton.mp h1]
        exact ⟨Nat.lt_succ_self _, Nat.lt_succ_self _⟩
    · rw [List.map_append, List.nodup_append]
      refine ⟨hrkey, List.nodup_singleton _, ?_⟩
      simp only [List.map_singleton, List.disjoint_singleton]
      intro hmem
      rcases List.mem_map.mp hmem with ⟨x, hxm, hkey⟩
      have h2 : x.meterId = db.nextMeterId := congrArg Prod.fst hkey
      have hlt := hrb x hxm
      omega
    · intro x hxm
      rcases List.mem_append.mp hxm with h1 | h1
      · exact Nat.lt_succ_of_lt (hrb x h1)
      · rw [List.mem_singleton.mp h1]
        exact Nat.lt_succ_self _
    · intro q
      by_cases hq : q = rd.quad
      · subst hq
        rw [if_pos ⟨hqf, rfl⟩]
        simp only [quadInfo, quadRows, ReadingData.quad_mpan, ReadingData.quad_serial,
          ReadingData.quad_registerId, ReadingData.quad_readingDate,
          resolveMeterId, List.find?_append, hmp, Option.none_or]
        rw [List.find?_cons_of_pos _ (by simp)]
        dsimp only
        rw [hmnone, Option.none_or]
        rw [List.find?_cons_of_pos _ (by simp)]
        dsimp only
        rw [List.filter_append,
          reading_filter_nil_of_lt db.readings db.nextMeterId rd.registerId
            rd.readingDate hrb]
        simp
      · rw [if_neg (fun hand => hq hand.2), List.append_nil]
        simp only [quadInfo, quadRows, resolveMeterId, List.find?_append]
        cases hmpq : db.meterPoints.find? (fun x => decide (x.mpan = q.mpan)) with
        | some mpq =>
          simp only [Option.or]
          have hmpq_mem : mpq ∈ db.meterPoints := List.mem_of_find?_eq_some hmpq
          have hmpq_mpan : mpq.mpan = q.mpan := by simpa using List.find?_some hmpq
          have hmnew : List.find?
              (fun x => decide ((x.meterPointId, x.serialNumber) = (mpq.id, q.serial)))
              [(⟨db.nextMeterId, db.nextMeterPointId, rd.meterSerial, rd.meterType⟩ : Meter)]
              = none := by
            rw [List.find?_cons_of_neg _ ?_, List.find?_nil]
            simp only [decide_eq_true_eq, Prod.mk.injEq, not_and]
            intro h1
            exact absurd h1.symm (Nat.ne_of_lt (hmpb mpq hmpq_mem))
          rw [hmnew]
          cases hmq : db.meters.find?
              (fun x => decide ((x.meterPointId, x.serialNumber) = (mpq.id, q.serial))) with
          | none => rfl
          | some mq =>
            simp only [Option.or]
            have hmq_mem : mq ∈ db.meters := List.mem_of_find?_eq_some hmq
            rw [List.filter_append]
            have hnil : List.filter
                (fun r => decide ((r.meterId, r.registerId, r.readingDate)
                  = (mq.id, q.registerId, q.readingDate)))
                [(⟨db.nextMeterId, ffId, rd.registerId, rd.readingDate, rd.readingValue, rd.readingType⟩ : Reading)] = [] := by
              rw [List.filter_eq_nil_iff]
              intro r hrm
              rw [List.mem_singleton.mp hrm]
              intro hdec
              have hkey := of_decide_eq_true hdec
              have h2 : db.nextMeterId = mq.id := congrArg Prod.fst hkey
              have hlt := (hmb mq hmq_mem).1
              omega
            rw [hnil, List.append_nil]
        | none =>
          rw [Option.none_or]
          cases hmpandec : decide (rd.mpan = q.mpan) with
          | true =>
            rw [List.find?_cons_of_pos _ (by simpa using hmpandec)]
            dsimp only
            have hmpan_q : rd.mpan = q.mpan := of_decide_eq_true hmpandec
            have hmold : List.find?
                (fun x => decide ((x.meterPointId, x.serialNumber)
                  = (db.nextMeterPointId, q.serial))) db.meters = none :=
              meter_find?_none_of_lt db.meters db.nextMeterPointId q.serial
                (fun m2 hm2 => (hmb m2 hm2).2)
            rw [hmold, Option.none_or]
            cases hserdec : decide (rd.meterSerial = q.serial) with
            | true =>
              have hser : rd.meterSerial = q.serial := of_decide_eq_true hserdec
              rw [List.find?_cons_of_pos _ (by simp [hser])]
              dsimp only
              rw [List.filter_append,
                reading_filter_nil_of_lt db.readings db.nextMeterId q.registerId
                  q.readingDate hrb]
              have hnil : List.filter
                  (fun r => decide ((r.meterId, r.registerId, r.readingDate)
                    = (db.nextMeterId, q.registerId, q.readingDate)))
                  [(⟨db.nextMeterId, ffId, rd.registerId, rd.readingDate, rd.readingValue, rd.readingType⟩ : Reading)] = [] := by
                rw [List.filter_eq_nil_iff]
                intro r hrm
                rw [List.mem_singleton.mp hrm]
                intro hdec
                have hkey2 := of_decide_eq_true hdec
                simp only [Prod.mk.injEq] at hkey2
                apply hq
                cases q with
                | mk qm qs qr qd =>
                  simp only [ReadingData.quad, Quad.mk.injEq]
                  simp only at hmpan_q hser hkey2
                  exact ⟨hmpan_q.symm, hser.symm, hkey2.2.1.symm, hkey2.2.2.symm⟩
              rw [hnil]
              rfl
            | false =>
              rw [List.find?_cons_of_neg _ ?_, List.find?_nil]
              simp only [decide_eq_true_eq, Prod.mk.injEq, not_and]
              intro _
              simpa using hserdec
          | false =>
            rw [List.find?_cons_of_neg _ (by simpa using hmpandec), List.find?_nil]

/-- Characterization of the whole save loop: well-formedness is
preserved, the flow file table is untouched, the entity tables only
grow, the imported count is the number of distinct keys of the file
that were absent from the store, and the rows keyed by any quad gain
exactly the `loopAppend` row. -/
theorem saveReadingsLoop_spec (rds : List ReadingData) : ∀ (db : DB) (ffId : Nat),
    wfDB db → ∀ (db2 : DB) (n : Nat), saveReadingsLoop db ffId rds = (db2, n) →
    wfDB db2 ∧
    db2.flowFiles = db.flowFiles ∧
    db2.nextFlowFileId = db.nextFlowFileId ∧
    (∃ t, db2.meterPoints = db.meterPoints ++ t) ∧
    (∃ t, db2.meters = db.meters ++ t) ∧
    (∃ t, db2.readings = db.readings ++ t) ∧
    n = (newKeys (fun q => hasQuad db q) (rds.map ReadingData.quad)).length ∧
    ∀ q, quadInfo db2 q = quadInfo db q ++ loopAppend (hasQuad db q) ffId rds q := by
  induction rds with
  | nil =>
    intro db ffId hwf db2 n h
    simp only [saveReadingsLoop] at h
    injection h with h1 h2
    subst h1; subst h2
    refine ⟨hwf, rfl, rfl, ⟨[], by simp⟩, ⟨[], by simp⟩, ⟨[], by simp⟩, rfl, ?_⟩
    intro q
    simp [loopAppend]
  | cons rd rest ih =>
    intro db ffId hwf db2 n h
    simp only [saveReadingsLoop] at h
    cases hs : saveReading db ffId rd with
    | mk db1 c =>
      rw [hs] at h
      dsimp only at h
      obtain ⟨hc, hff1, hnf1, hmp1, hm1, hr1, hwf1, hqi1⟩ :=
        saveReading_spec db ffId rd hwf db1 c hs
      cases ht : saveReadingsLoop db1 ffId rest with
      | mk db2x nx =>
        rw [ht] at h
        dsimp only at h
        injection h with h1 h2
        subst h1; subst h2
        obtain ⟨hwf2, hff2, hnf2, hmp2, hm2, hr2, hn2, hqi2⟩ :=
          ih db1 ffId hwf1 db2x nx ht
        refine ⟨hwf2, by rw [hff2, hff1], by rw [hnf2, hnf1], ?_, ?_, ?_, ?_, ?_⟩
        · obtain ⟨t1, e1⟩ := hmp1
          obtain ⟨t2, e2⟩ := hmp2
          exact ⟨t1 ++ t2, by rw [e2, e1, List.append_assoc]⟩
        · obtain ⟨t1, e1⟩ := hm1
          obtain ⟨t2, e2⟩ := hm2
          exact ⟨t1 ++ t2, by rw [e2, e1, List.append_assoc]⟩
        · obtain ⟨t1, e1⟩ := hr1
          obtain ⟨t2, e2⟩ := hr2
          exact ⟨t1 ++ t2, by rw [e2, e1, List.append_assoc]⟩
        · cases hp : hasQuad db rd.quad with
          | true =>
            have hc2 : c = false := by rw [hc, hp]; rfl
            subst hc2
            have hsame : ∀ x, hasQuad db1 x = hasQuad db x := by
              intro x
              rw [hasQuad_eq, hasQuad_eq, hqi1 x]
              simp [hp]
            rw [hn2,
              newKeys_congr (rest.map ReadingData.quad) _ _ hsame,
              List.map_cons]
            simp [newKeys, hp]
          | false =>
            have hc2 : c = true := by rw [hc, hp]; rfl
            subst hc2
            have hsame : ∀ x, hasQuad db1 x
                = ((fun z => hasQuad db z) x || decide (x = rd.quad)) := by
              intro x
              by_cases hx : x = rd.quad
              · subst hx
                rw [hasQuad_eq, hqi1 rd.quad, if_pos ⟨hp, rfl⟩]
                simp
              · rw [hasQuad_eq, hqi1 x, if_neg (fun hand => hx hand.2),
                  List.append_nil, ← hasQuad_eq]
                simp [hx]
            rw [hn2,
              newKeys_congr (rest.map ReadingData.quad) _ _ hsame,
              List.map_cons]
            simp [newKeys, hp, Nat.add_comm]
        · intro q
          rw [hqi2 q, hqi1 q, List.append_assoc]
          congr 1
          by_cases hp : hasQuad db rd.quad = true
          · have hsame : hasQuad db1 q = hasQuad db q := by
              rw [hasQuad_eq, hasQuad_eq, hqi1 q]
              simp [hp]
            rw [if_neg (by simp [hp]), List.nil_append, hsame]
            simp only [loopAppend]
            by_cases hpq : hasQuad db q = true
            · rw [if_pos hpq, if_pos hpq]
            · rw [if_neg hpq, if_neg hpq]
              have hne : ¬(rd.quad = q) := by
                intro he
                exact hpq (he ▸ hp)
              rw [List.find?_cons_of_neg _ (by simpa using hne)]
          · have hp2 : hasQuad db rd.quad = false := by
              revert hp; cases hasQuad db rd.quad <;> simp
            by_cases hq : q = rd.quad
            · subst hq
              rw [if_pos ⟨hp2, rfl⟩]
              have hnew : hasQuad db1 rd.quad = true := by
                rw [hasQuad_eq, hqi1 rd.quad, if_pos ⟨hp2, rfl⟩]
                simp
              rw [hnew]
              simp only [loopAppend, if_true, hp2, Bool.false_eq_true, if_false]
              rw [List.find?_cons_of_pos _ (by simp)]
              simp
            · rw [if_neg (fun hand => hq hand.2), List.nil_append]
              have hsame : hasQuad db1 q = hasQuad db q := by
                rw [hasQuad_eq, hasQuad_eq, hqi1 q]
                simp [hq]
              rw [hsame]
              simp only [loopAppend]
              by_cases hpq : hasQuad db q = true
              · rw [if_pos hpq, if_pos hpq]
              · rw [if_neg hpq, if_neg hpq,
                  List.find?_cons_of_neg _ (by simpa using fun he => hq he.symm)]

/-- Characterization of `save_file_data`: the count and the per-quad
row evolution are those of the loop, the entity tables only grow, and
the flow file table gains exactly one row — id `db.nextFlowFileId`,
this filename, and the final count — while existing flow file rows are
untouched. -/
theorem save_file_data_spec (db : DB) (fd : FileData) (filename : String)
    (hwf : wfDB db) (db2 : DB) (n : Nat)
    (h : save_file_data db fd filename = (db2, n)) :
    wfDB db2 ∧
    n = (newKeys (fun q => hasQuad db q) (fd.readings.map ReadingData.quad)).length ∧
    (∀ q, quadInfo db2 q
      = quadInfo db q ++ loopAppend (hasQuad db q) db.nextFlowFileId fd.readings q) ∧
    (∃ t, db2.meterPoints = db.meterPoints ++ t) ∧
    (∃ t, db2.meters = db.meters ++ t) ∧
    (∃ t, db2.readings = db.readings ++ t) ∧
    db2.nextFlowFileId = db.nextFlowFileId + 1 ∧
    (∃ fr, db2.flowFiles = db.flowFiles ++ [⟨db.nextFlowFileId, filename, fr, n⟩]) := by
  obtain ⟨hff, hffb, hmpid, hmpan, hmpb, hmid, hmkey, hmb, hrkey, hrb⟩ := hwf
  simp only [save_file_data] at h
  have hwf0 : wfDB { db with
      flowFiles := db.flowFiles
        ++ [⟨db.nextFlowFileId, filename,
             (match fd.header with | some hd => hd.fileReference | none => ""), 0⟩],
      nextFlowFileId := db.nextFlowFileId + 1 } := by
    refine ⟨?_, ?_, hmpid, hmpan, hmpb, hmid, hmkey, hmb, hrkey, hrb⟩
    · rw [List.map_append, List.nodup_append]
      refine ⟨hff, List.nodup_singleton _, ?_⟩
      simp only [List.map_singleton, List.disjoint_singleton]
      intro hmem
      rcases List.mem_map.mp hmem with ⟨x, hxm, hkey⟩
      exact absurd hkey (Nat.ne_of_lt (hffb x hxm))
    · intro f hf
      rcases List.mem_append.mp hf with h1 | h1
      · exact Nat.lt_succ_of_lt (hffb f h1)
      · rw [List.mem_singleton.mp h1]
        exact Nat.lt_succ_self _
  cases ht : saveReadingsLoop
      { db with
        flowFiles := db.flowFiles
          ++ [⟨db.nextFlowFileId, filename,
               (match fd.header with | some hd => hd.fileReference | none => ""), 0⟩],
        nextFlowFileId := db.nextFlowFileId + 1 }
      db.nextFlowFileId fd.readings with
  | mk db1 n1 =>
    rw [ht] at h
    dsimp only at h
    injection h with h1 h2
    subst h1; subst h2
    obtain ⟨hwf1, hff1, hnf1, hmp1, hm1, hr1, hn1, hqi1⟩ :=
      saveReadingsLoop_spec fd.readings _ db.nextFlowFileId hwf0 db1 n1 ht
    obtain ⟨hff1a, hffb1, hmpid1, hmpan1, hmpb1, hmid1, hmkey1, hmb1, hrkey1, hrb1⟩ := hwf1
    have hidmap : ∀ f ∈ db1.flowFiles,
        FlowFile.id (if f.id = db.nextFlowFileId
          then { f with recordCount := n1 } else f) = FlowFile.id f := by
      intro f _
      by_cases hc : f.id = db.nextFlowFileId
      · rw [if_pos hc]
      · rw [if_neg hc]
    refine ⟨⟨?_, ?_, hmpid1, hmpan1, hmpb1, hmid1, hmkey1, hmb1, hrkey1, hrb1⟩,
      hn1, hqi1, hmp1, hm1, hr1, hnf1, ?_⟩
    · have hflmap : List.map FlowFile.id
          (db1.flowFiles.map (fun f => if f.id = db.nextFlowFileId
            then { f with recordCount := n1 } else f))
          = List.map FlowFile.id db1.flowFiles := by
        rw [List.map_map]
        exact List.map_congr_left (fun f hf => hidmap f hf)
      rw [hflmap]
      exact hff1a
    · intro f hf
      rcases List.mem_map.mp hf with ⟨x, hxm, hkey⟩
      have hid : FlowFile.id (if x.id = db.nextFlowFileId
          then { x with recordCount := n1 } else x) = x.id := hidmap x hxm
      rw [← hkey, hid]
      exact hffb1 x hxm
    · refine ⟨(match fd.header with | some hd => hd.fileReference | none => ""), ?_⟩
      rw [hff1, List.map_append]
      have hold : List.map (fun f => if f.id = db.nextFlowFileId
          then { f with recordCount := n1 } else f) db.flowFiles = db.flowFiles := by
        have h2 : ∀ f ∈ db.flowFiles,
            (if f.id = db.nextFlowFileId then { f with recordCount := n1 } else f)
              = id f := by
          intro f hf
          rw [if_neg (Nat.ne_of_lt (hffb f hf))]
          rfl
        rw [List.map_congr_left h2, List.map_id]
      rw [hold]
      rw [List.map_singleton, if_pos rfl]

/-- A successful non-dry `import_file` decomposes into its stages:
the file existed, the duplicate check passed, the parse succeeded, and
the parsed data was saved. -/
theorem import_file_ok_elim (fs : List (String × List String)) (db : DB)
    (filePath : String) (db2 : DB) (n : Nat)
    (h : import_file fs db filePath false = .ok (db2, n)) :
    ∃ lines fd,
      fsLookup fs filePath = some lines ∧
      db.flowFiles.any (fun f => decide (f.filename = basename filePath)) = false ∧
      parse_d0010_file (basename filePath) lines = .ok fd ∧
      save_file_data db fd (basename filePath) = (db2, n) := by
  unfold import_file at h
  cases hfs : fsLookup fs filePath with
  | none =>
    rw [hfs] at h
    cases h
  | some lines =>
    rw [hfs] at h
    dsimp only at h
    cases hdup : db.flowFiles.any (fun f => decide (f.filename = basename filePath)) with
    | true =>
      rw [hdup] at h
      simp only [if_true] at h
      cases h
    | false =>
      rw [hdup] at h
      simp only [Bool.false_eq_true, if_false] at h
      cases hp : parse_d0010_file (basename filePath) lines with
      | error e =>
        rw [hp] at h
        cases h
      | ok fd =>
        rw [hp] at h
        simp only [Bool.false_eq_true, if_false] at h
        cases hsv : save_file_data db fd (basename filePath) with
        | mk dbr nr =>
          rw [hsv] at h
          injection h with h1
          injection h1 with ha hb
          exact ⟨lines, fd, rfl, rfl, hp, by rw [hsv, ha, hb]⟩

/-! ## Claim theorems -/

/-- C6: for every call `import_file(path)` (non-dry) where a FlowFile
with the same filename already exists, the call fails with the
duplicate-file signal.  The content `lines` of the file is universally
quantified and does not occur in the conclusion — the file is never
read — and the error return means no rows are written (state is only
produced on the `.ok` path of the embedding). -/
theorem C6_duplicate_file_short_circuit
    (fs : List (String × List String)) (db : DB) (filePath : String)
    (lines : List String)
    (hex : fsLookup fs filePath = some lines)
    (hdup : db.flowFiles.any (fun f => decide (f.filename = basename filePath)) = true) :
    import_file fs db filePath false
      = .error (.duplicateFile "File has already been imported" (basename filePath)) := by
  unfold import_file
  rw [hex]
  dsimp only
  rw [hdup]
  simp

/-- C6 witness: a concrete store already holding `a.uff` rejects a
second import of a file named `a.uff` without looking at its content. -/
theorem C6_duplicate_file_short_circuit_witness :
    import_file [("a.uff", ["garbage"])]
      ⟨[⟨0, "a.uff", "", 1⟩], [], [], [], 1, 0, 0⟩ "a.uff" false
      = .error (.duplicateFile "File has already been imported" "a.uff") :=
  C6_duplicate_file_short_circuit [("a.uff", ["garbage"])]
    ⟨[⟨0, "a.uff", "", 1⟩], [], [], [], 1, 0, 0⟩ "a.uff" ["garbage"]
    (by decide) (by decide)

/-- C10: in dry-run mode the duplicate-filename check still runs before
parsing — a duplicate filename raises `DuplicateFileError` rather than
returning a would-be count — and on a fresh filename dry run returns
the number of parsed candidates with the store returned unchanged. -/
theorem C10_dry_run_behaviour :
    (∀ (fs : List (String × List String)) (db : DB) (filePath : String)
        (lines : List String),
      fsLookup fs filePath = some lines →
      db.flowFiles.any (fun f => decide (f.filename = basename filePath)) = true →
      import_file fs db filePath true
        = .error (.duplicateFile "File has already been imported" (basename filePath))) ∧
    (∀ (fs : List (String × List String)) (db : DB) (filePath : String)
        (lines : List String) (fd : FileData),
      fsLookup fs filePath = some lines →
      db.flowFiles.any (fun f => decide (f.filename = basename filePath)) = false →
      parse_d0010_file (basename filePath) lines = .ok fd →
      import_file fs db filePath true = .ok (db, fd.readings.length)) := by
  constructor
  · intro fs db filePath lines hex hdup
    unfold import_file
    rw [hex]
    dsimp only
    rw [hdup]
    simp
  · intro fs db filePath lines fd hex hdup hp
    unfold import_file
    rw [hex]
    dsimp only
    rw [hdup]
    simp only [Bool.false_eq_true, if_false]
    rw [hp]
    simp

/-- C10 witness: dry run on a duplicate filename errors even though the
file would parse; dry run on a fresh filename counts the one candidate
and returns the store unchanged. -/
theorem C10_dry_run_behaviour_witness :
    import_file [("a.uff", ["026|1234567890123", "028|M1|S", "030|01|20231201100000|5.0"])]
      ⟨[⟨0, "a.uff", "", 1⟩], [], [], [], 1, 0, 0⟩ "a.uff" true
      = .error (.duplicateFile "File has already been imported" "a.uff") ∧
    import_file [("b.uff", ["026|1234567890123", "028|M1|S", "030|01|20231201100000|5.0"])]
      emptyDB "b.uff" true
      = .ok (emptyDB, 1) :=
  ⟨C10_dry_run_behaviour.1 _ _ "a.uff"
      ["026|1234567890123", "028|M1|S", "030|01|20231201100000|5.0"]
      (by decide) (by decide),
   C10_dry_run_behaviour.2 _ _ "b.uff"
      ["026|1234567890123", "028|M1|S", "030|01|20231201100000|5.0"]
      ⟨none,
       [⟨"1234567890123", "M1", some "S", "01", ⟨2023, 12, 1, 10, 0, 0⟩,
         ⟨false, 50, -1⟩, "ACTUAL"⟩], none⟩
      (by decide) (by decide) (by rfl)⟩

/-- C7: a file whose lines all process without error but which yields
zero reading candidates makes the import fail with the
no-readings format error; the error return means nothing is
persisted. -/
theorem C7_zero_candidates_rejected
    (fs : List (String × List String)) (db : DB) (filePath : String)
    (lines : List String) (ctx : ParseCtx)
    (hex : fsLookup fs filePath = some lines)
    (hdup : db.flowFiles.any (fun f => decide (f.filename = basename filePath)) = false)
    (hloop : processLines (basename filePath) 1 initialParseCtx lines = .ok ctx)
    (hempty : ctx.readings = []) :
    import_file fs db filePath false
      = .error (.invalidFormat "No readings found in file"
          (some (basename filePath)) none none) := by
  unfold import_file
  rw [hex]
  dsimp only
  rw [hdup]
  simp only [Bool.false_eq_true, if_false]
  unfold parse_d0010_file
  rw [hloop]
  dsimp only
  rw [if_pos hempty]

/-- C7 witness: a header/trailer-only file parses line by line but the
whole-file import fails as invalid. -/
theorem C7_zero_candidates_rejected_witness :
    import_file [("h.uff", ["ZHV|0000123456|D0010002|x", "ZPT|0000123456|2"])]
      emptyDB "h.uff" false
      = .error (.invalidFormat "No readings found in file" (some "h.uff") none none) :=
  C7_zero_candidates_rejected _ emptyDB "h.uff"
    ["ZHV|0000123456|D0010002|x", "ZPT|0000123456|2"]
    ⟨some ⟨"ZHV", "0000123456", "D0010002"⟩, [], some ⟨"ZPT", some "0000123456", 2⟩,
     none, none, none⟩
    (by decide) (by decide) (by rfl) (by rfl)

/-- C2 counterexample: the claim says a line with an unknown leading
tag is a fatal parse error that aborts the whole file with no readings
persisted.  On this concrete file whose first line has tag `XYZ`, that
same import instead returns success with the full store shown — one
FlowFile, one MeterPoint, one Meter and one persisted Reading, count
1 — because the `if/elif` chain of the line loop has no `else`, so the
unknown tag is silently skipped. -/
theorem C2_counterexample :
    import_file
        [("f.uff", ["XYZ|junk", "026|1234567890123", "028|M1|S",
                    "030|01|20231201100000|5.0"])]
        emptyDB "f.uff" false
      = .ok (⟨[⟨0, "f.uff", "", 1⟩], [⟨0, "1234567890123"⟩],
              [⟨0, 0, "M1", some "S"⟩],
              [⟨0, 0, "01", ⟨2023, 12, 1, 10, 0, 0⟩, ⟨false, 50, -1⟩, "ACTUAL"⟩],
              1, 1, 1⟩, 1) := by
  rfl

/-- C2 amended: a non-blank line whose leading tag is none of `ZHV`,
`026`, `028`, `030`, `ZPT` is silently ignored rather than fatal:
processing the line succeeds and leaves the parse state (context and
collected readings) completely unchanged, and the line loop continues
with the rest of the file from that same state, the line only
advancing the 1-based line counter. -/
theorem C2_amended_unknown_tag_skipped :
    (∀ (filename : String) (lineNumber : Nat) (rawLine : String) (ctx : ParseCtx),
      pyStrip rawLine ≠ "" →
      ((pySplit '|' (pyStrip rawLine)).headD "")
        ∉ (["ZHV", "026", "028", "030", "ZPT"] : List String) →
      processLine filename lineNumber rawLine ctx = .ok ctx) ∧
    (∀ (filename : String) (lineNumber : Nat) (rawLine : String) (ctx : ParseCtx)
        (rest : List String),
      pyStrip rawLine ≠ "" →
      ((pySplit '|' (pyStrip rawLine)).headD "")
        ∉ (["ZHV", "026", "028", "030", "ZPT"] : List String) →
      processLines filename lineNumber ctx (rawLine :: rest)
        = processLines filename (lineNumber + 1) ctx rest) := by
  have hA : ∀ (filename : String) (lineNumber : Nat) (rawLine : String) (ctx : ParseCtx),
      pyStrip rawLine ≠ "" →
      ((pySplit '|' (pyStrip rawLine)).headD "")
        ∉ (["ZHV", "026", "028", "030", "ZPT"] : List String) →
      processLine filename lineNumber rawLine ctx = .ok ctx := by
    intro filename lineNumber rawLine ctx hnb hunk
    simp only [List.mem_cons, List.mem_singleton, not_or] at hunk
    obtain ⟨h1, h2, h3, h4, h5, _⟩ := hunk
    simp only [processLine]
    rw [if_neg hnb]
    simp only [processRecord]
    rw [if_neg h1, if_neg h2, if_neg h3, if_neg h4, if_neg h5]
  refine ⟨hA, ?_⟩
  intro filename lineNumber rawLine ctx rest hnb hunk
  simp only [processLines]
  rw [hA filename lineNumber rawLine ctx hnb hunk]

/-- C2 amended witness: the `XYZ` line of the counterexample file is a
no-op on a concrete parse state, and the loop on the whole file
continues past it into the remaining three lines. -/
theorem C2_amended_unknown_tag_skipped_witness :
    processLine "f.uff" 1 "XYZ|junk" initialParseCtx = .ok initialParseCtx ∧
    processLines "f.uff" 1 initialParseCtx
        ["XYZ|junk", "026|1234567890123", "028|M1|S",
         "030|01|20231201100000|5.0"]
      = processLines "f.uff" 2 initialParseCtx
        ["026|1234567890123", "028|M1|S", "030|01|20231201100000|5.0"] :=
  ⟨C2_amended_unknown_tag_skipped.1 "f.uff" 1 "XYZ|junk" initialParseCtx
     (by decide) (by decide),
   C2_amended_unknown_tag_skipped.2 "f.uff" 1 "XYZ|junk" initialParseCtx
     ["026|1234567890123", "028|M1|S", "030|01|20231201100000|5.0"]
     (by decide) (by decide)⟩

/-- C5 counterexample: the claim says a `028` record carrying only a
non-empty serial number parses successfully with meter type defaulting
to `S`.  In fact `parse_meter_record` rejects any record with fewer
than three fields, so `028|M00123456` is an invalid-format error. -/
theorem C5_counterexample :
    parse_meter_record ["028", "M00123456"]
      = .error (.invalidFormat "Invalid 028 meter record format" none
          (some "028|SERIAL|TYPE") (some "028|1 fields")) := by
  rfl

/-- C5 amended: a `028` record carrying only a serial number (two
fields in total) always fails with the invalid-028-format error; the
`else "S"` default of the source is unreachable because records with
fewer than three fields have already been rejected. -/
theorem C5_amended_two_field_028_rejected (serialField : String) :
    parse_meter_record ["028", serialField]
      = .error (.invalidFormat "Invalid 028 meter record format" none
          (some "028|SERIAL|TYPE") (some "028|1 fields")) := by
  unfold parse_meter_record
  rw [if_pos (by simp)]
  have hlen : (["028", serialField] : List String).length - 1 = 1 := by simp
  rw [hlen]
  rfl

/-- C4 counterexample: the claim says any `026` MPAN field that is not
13 ASCII digits fails the import with no MeterPoint created.
`"²²²²²²²²²²²²²"` is 13 superscript-two characters — none of them an
ASCII digit — yet Python's `str.isdigit` accepts them, the whole file
loads successfully, and a MeterPoint row with that mpan is
created. -/
theorem C4_counterexample :
    ("²²²²²²²²²²²²²" : String).toList.all Char.isDigit = false ∧
    ("²²²²²²²²²²²²²" : String).toList.length = 13 ∧
    (import_file
        [("f.uff", ["026|²²²²²²²²²²²²²", "028|M1|S",
                    "030|01|20231201100000|5.0"])]
        emptyDB "f.uff" false).toOption.map
      (fun p => p.1.meterPoints.map MeterPoint.mpan)
      = some ["²²²²²²²²²²²²²"] := by
  refine ⟨by decide, by decide, by rfl⟩

/-- C4 amended: the accepted MPAN alphabet is Python's `str.isdigit`,
a superset of the ASCII digits.  A `026` record whose stripped MPAN
field is not 13 `isdigit` characters fails with `InvalidMPANError`,
wrapped at the line level into a `ParsingError` naming record type
`026` (so the file aborts with nothing — in particular no MeterPoint —
persisted); a 13-character MPAN of non-ASCII Unicode digits is
accepted. -/
theorem C4_amended_mpan_validator :
    (∀ (parts : List String), 2 ≤ parts.length →
      ¬(pyIsDigitStr (pyStrip (parts.getD 1 "")) = true
        ∧ (pyStrip (parts.getD 1 "")).toList.length = 13) →
      parse_mpan_record parts = .error (.invalidMPAN (pyStrip (parts.getD 1 "")))) ∧
    (∀ (filename : String) (lineNumber : Nat) (rawLine : String) (ctx : ParseCtx)
        (mpanField : String) (rest : List String),
      pyStrip rawLine ≠ "" →
      pySplit '|' (pyStrip rawLine) = "026" :: mpanField :: rest →
      ¬(pyIsDigitStr (pyStrip mpanField) = true
        ∧ (pyStrip mpanField).toList.length = 13) →
      processLine filename lineNumber rawLine ctx
        = .error (.parsingError "026" (pyStrip rawLine) filename lineNumber)) := by
  have hA : ∀ (parts : List String), 2 ≤ parts.length →
      ¬(pyIsDigitStr (pyStrip (parts.getD 1 "")) = true
        ∧ (pyStrip (parts.getD 1 "")).toList.length = 13) →
      parse_mpan_record parts = .error (.invalidMPAN (pyStrip (parts.getD 1 ""))) := by
    intro parts hlen hbad
    unfold parse_mpan_record
    rw [if_neg (by omega)]
    rw [if_pos ?_]
    rw [Bool.or_eq_true]
    by_cases hd : pyIsDigitStr (pyStrip (parts.getD 1 "")) = true
    · right
      have hl : (pyStrip (parts.getD 1 "")).toList.length ≠ 13 :=
        fun hl13 => hbad ⟨hd, hl13⟩
      exact decide_eq_true hl
    · left
      simp only [Bool.not_eq_true] at hd
      rw [hd]
      rfl
  refine ⟨hA, ?_⟩
  intro filename lineNumber rawLine ctx mpanField rest hnb hsplit hbad
  have hmp := hA ("026" :: mpanField :: rest) (by simp) (by simpa using hbad)
  simp only [processLine]
  rw [if_neg hnb, hsplit]
  simp only [processRecord]
  have hh : (("026" : String) :: mpanField :: rest).headD "" = "026" := rfl
  rw [hh]
  rw [if_neg (by decide), if_pos (show ("026" : String) = "026" from rfl), hmp]

/-- C4 amended witness: a 12-character ASCII MPAN is rejected at the
record level, and a full line carrying it fails with a `ParsingError`
naming record type `026`. -/
theorem C4_amended_mpan_validator_witness :
    parse_mpan_record ["026", "123456789012"]
      = .error (.invalidMPAN "123456789012") ∧
    processLine "f.uff" 2 "026|123456789012" initialParseCtx
      = .error (.parsingError "026" "026|123456789012" "f.uff" 2) :=
  ⟨C4_amended_mpan_validator.1 ["026", "123456789012"] (by decide) (by decide),
   C4_amended_mpan_validator.2 "f.uff" 2 "026|123456789012" initialParseCtx
     "123456789012" [] (by decide) (by rfl) (by decide)⟩

/-- C8: when processing of a line fails (any record-level failure,
including a `030` without carried MPAN/meter context), the parse of
the whole file returns a `ParsingError` carrying that line's record
type, the stripped raw line, the source filename and the 1-based line
number — and the result is independent of every line after the failing
one (`post` does not occur in the conclusion): the parse aborts
immediately with no partial recovery.  The second conjunct shows the
surfaced message truncates the raw line to 50 characters and names the
file and 1-based line. -/
theorem C8_line_failure_aborts (filename : String) (pre post : List String)
    (rawLine : String) (ctx : ParseCtx) (e : ImportError)
    (hpre : processLines filename 1 initialParseCtx pre = .ok ctx)
    (hnb : pyStrip rawLine ≠ "")
    (hfail : processRecord ((pySplit '|' (pyStrip rawLine)).headD "")
        (pySplit '|' (pyStrip rawLine)) ctx = .error e) :
    parse_d0010_file filename (pre ++ rawLine :: post)
      = .error (.parsingError ((pySplit '|' (pyStrip rawLine)).headD "")
          (pyStrip rawLine) filename (pre.length + 1)) ∧
    parsingErrorMessage ((pySplit '|' (pyStrip rawLine)).headD "")
        (pyStrip rawLine) filename (pre.length + 1)
      = ("Failed to parse " ++ ((pySplit '|' (pyStrip rawLine)).headD "")
          ++ " record: " ++ truncate50 (pyStrip rawLine) ++ "...")
        ++ (if filename = "" then "" else " | File: " ++ filename)
        ++ (" | Line: " ++ toString (pre.length + 1)) := by
  constructor
  · unfold parse_d0010_file
    rw [processLines_append, hpre]
    dsimp only
    simp only [processLines, processLine]
    rw [if_neg hnb, hfail]
    have harith : 1 + pre.length = pre.length + 1 := Nat.add_comm 1 pre.length
    rw [harith]
  · unfold parsingErrorMessage
    rw [if_neg hnb, if_neg (show ¬(pre.length + 1 = 0) by omega)]

/-- C8 witness: a `030` record reached with no meter context in scope
(after one valid `026` line) aborts the file at line 2 with a
`ParsingError` carrying type `030`, the raw line, the filename and the
line number; the trailing `ZPT` line is never reached. -/
theorem C8_line_failure_aborts_witness :
    parse_d0010_file "w.uff"
        (["026|1234567890123"] ++ "030|01|20231201100000|5.0" :: ["ZPT|x|1"])
      = .error (.parsingError "030" "030|01|20231201100000|5.0" "w.uff" 2) ∧
    parsingErrorMessage "030" "030|01|20231201100000|5.0" "w.uff" 2
      = ("Failed to parse " ++ "030" ++ " record: "
          ++ truncate50 "030|01|20231201100000|5.0" ++ "...")
        ++ (if ("w.uff" : String) = "" then "" else " | File: " ++ "w.uff")
        ++ (" | Line: " ++ toString (1 + 1)) :=
  C8_line_failure_aborts "w.uff" ["026|1234567890123"] ["ZPT|x|1"]
    "030|01|20231201100000|5.0"
    ⟨none, [], none, some "1234567890123", none, none⟩
    (.valueError "Reading record without preceding MPAN/meter data")
    (by rfl) (by decide) (by rfl)

/-- C3 counterexample: the claim says no Reading row with a negative
value is ever committed by the import path.  On this concrete file the
`030` value `-5.0` passes the `Decimal` validator and the import
commits it: `get_or_create` never runs `Reading.clean`, so the
persistence-layer invariant is not enforced on this path. -/
theorem C3_counterexample :
    (import_file
        [("n.uff", ["026|1234567890123", "028|M1|S",
                    "030|01|20231201100000|-5.0"])]
        emptyDB "n.uff" false).toOption.map
      (fun p => (p.1.readings.map (fun r => r.readingValue.isNegVal), p.2))
      = some ([true], 1) := by
  rfl

/-- C3 amended: the field validator accepts the negative numeric form,
and `Reading.clean` (the entity invariant) would reject it — but the
loader commits the row anyway, because `get_or_create` does not invoke
`clean`.  For any store and parsed file whose first candidate with a
fresh key carries a negative value, the saved store holds exactly that
row, negative value included. -/
theorem C3_amended_negative_value_committed
    (db : DB) (fd : FileData) (filename : String) (rd : ReadingData)
    (hwf : wfDB db)
    (hfirst : fd.readings.find? (fun z => decide (z.quad = rd.quad)) = some rd)
    (hneg : rd.readingValue.isNegVal = true)
    (hnew : hasQuad db rd.quad = false) :
    reading_clean rd.readingValue = .error "Reading value cannot be negative" ∧
    quadInfo (save_file_data db fd filename).1 rd.quad
      = [(db.nextFlowFileId, rd.readingValue)] := by
  constructor
  · unfold reading_clean
    rw [if_pos hneg]
  · cases hsv : save_file_data db fd filename with
    | mk db2 n =>
      obtain ⟨_, _, hqi, _⟩ := save_file_data_spec db fd filename hwf db2 n hsv
      dsimp only
      rw [hqi rd.quad]
      have hempty : quadInfo db rd.quad = [] := by
        rw [hasQuad_eq] at hnew
        have h2 : (quadInfo db rd.quad).isEmpty = true := by
          revert hnew
          cases (quadInfo db rd.quad).isEmpty <;> simp
        exact List.isEmpty_iff.mp h2
      rw [hempty]
      unfold loopAppend
      rw [if_neg (by simp [hnew]), hfirst]
      rfl

/-- C3 amended witness: the concrete negative reading of the
counterexample file is rejected by `Reading.clean` yet committed, with
its value intact, by the loader. -/
theorem C3_amended_negative_value_committed_witness :
    reading_clean ⟨true, 50, -1⟩ = .error "Reading value cannot be negative" ∧
    quadInfo (save_file_data emptyDB
        ⟨none,
         [⟨"1234567890123", "M1", some "S", "01", ⟨2023, 12, 1, 10, 0, 0⟩,
           ⟨true, 50, -1⟩, "ACTUAL"⟩], none⟩
        "n.uff").1
      ⟨"1234567890123", "M1", "01", ⟨2023, 12, 1, 10, 0, 0⟩⟩
      = [(0, ⟨true, 50, -1⟩)] :=
  C3_amended_negative_value_committed emptyDB
    ⟨none,
     [⟨"1234567890123", "M1", some "S", "01", ⟨2023, 12, 1, 10, 0, 0⟩,
       ⟨true, 50, -1⟩, "ACTUAL"⟩], none⟩
    "n.uff"
    ⟨"1234567890123", "M1", some "S", "01", ⟨2023, 12, 1, 10, 0, 0⟩,
     ⟨true, 50, -1⟩, "ACTUAL"⟩
    (by decide) (by decide) (by decide) (by decide)

/-- C9: an import never modifies an existing Meter row.  Every meter of
the pre-import store is still present, field for field (so its stored
`meter_type` is not updated from any new `028` record), and it is
still the unique row the loader's `(meter_point, serial_number)`
lookup resolves to. -/
theorem C9_existing_meter_untouched
    (fs : List (String × List String)) (db : DB) (filePath : String)
    (db2 : DB) (n : Nat) (m : Meter)
    (hwf : wfDB db)
    (himp : import_file fs db filePath false = .ok (db2, n))
    (hmem : m ∈ db.meters) :
    m ∈ db2.meters ∧
    db2.meters.find? (fun x => decide ((x.meterPointId, x.serialNumber)
      = (m.meterPointId, m.serialNumber))) = some m := by
  obtain ⟨lines, fd, _, _, _, hsv⟩ := import_file_ok_elim fs db filePath db2 n himp
  obtain ⟨hwf2, _, _, _, hm2, _⟩ := save_file_data_spec db fd (basename filePath) hwf db2 n hsv
  obtain ⟨t, ht⟩ := hm2
  have hmem2 : m ∈ db2.meters := by
    rw [ht]
    exact List.mem_append.mpr (Or.inl hmem)
  obtain ⟨_, _, _, _, _, _, hmkey2, _, _, _⟩ := hwf2
  exact ⟨hmem2,
    find?_eq_of_mem_of_nodup (fun x => (x.meterPointId, x.serialNumber)) hmkey2 hmem2⟩

/-- C9 witness: a store holding meter `M1` with type `C` imports a file
whose `028` record declares `M1` with type `P`; the stored row keeps
type `C` and remains the row the key lookup returns. -/
theorem C9_existing_meter_untouched_witness :
    (⟨0, 0, "M1", some "C"⟩ : Meter)
      ∈ (DB.meters ⟨[⟨0, "old.uff", "", 1⟩], [⟨0, "1234567890123"⟩],
          [⟨0, 0, "M1", some "C"⟩], [], 1, 1, 1⟩) ∧
    ∀ db2 n, import_file
        [("new.uff", ["026|1234567890123", "028|M1|P",
                      "030|01|20231201100000|7.0"])]
        ⟨[⟨0, "old.uff", "", 1⟩], [⟨0, "1234567890123"⟩],
         [⟨0, 0, "M1", some "C"⟩], [], 1, 1, 1⟩
        "new.uff" false = .ok (db2, n) →
      (⟨0, 0, "M1", some "C"⟩ : Meter) ∈ db2.meters ∧
      db2.meters.find? (fun x => decide ((x.meterPointId, x.serialNumber)
        = (0, "M1"))) = some ⟨0, 0, "M1", some "C"⟩ :=
  ⟨by decide,
   fun db2 n himp =>
     C9_existing_meter_untouched _ _ "new.uff" db2 n ⟨0, 0, "M1", some "C"⟩
       (by decide) himp (by decide)⟩

/-- C1: two imports of files with distinct filenames whose `030`
records share the business key `k = (mpan, serial, registerId,
readingDateTime)` — the key resolving to the spec's `(meter,
registerId, readingDateTime)` triple through the unique MeterPoint and
Meter keys — leave exactly one Reading row with that key.  Its
provenance and value (`quadInfo`) are the first import's flow file id
and the value of file A's first candidate with that key, identical
after both imports (file B neither re-attributes nor rewrites it); the
flow file with that id is file A's row; the key contributes exactly
one to `n1` (it is one entry of the duplicate-free `newKeys` list
whose length is `n1`) and nothing to `n2` (it is not an entry of the
corresponding list for the second import). -/
theorem C1_shared_triple_round_trip
    (fs1 fs2 : List (String × List String)) (db0 db1 db2 : DB)
    (pathA pathB : String) (linesA linesB : List String)
    (fdA fdB : FileData) (n1 n2 : Nat) (k : Quad)
    (hwf : wfDB db0)
    (himpA : import_file fs1 db0 pathA false = .ok (db1, n1))
    (himpB : import_file fs2 db1 pathB false = .ok (db2, n2))
    (hexA : fsLookup fs1 pathA = some linesA)
    (hpA : parse_d0010_file (basename pathA) linesA = .ok fdA)
    (hexB : fsLookup fs2 pathB = some linesB)
    (hpB : parse_d0010_file (basename pathB) linesB = .ok fdB)
    (hkA : k ∈ fdA.readings.map ReadingData.quad)
    (hkB : k ∈ fdB.readings.map ReadingData.quad)
    (hnew : hasQuad db0 k = false) :
    (∃ rd, fdA.readings.find? (fun z => decide (z.quad = k)) = some rd
      ∧ quadInfo db1 k = [(db0.nextFlowFileId, rd.readingValue)]
      ∧ quadInfo db2 k = [(db0.nextFlowFileId, rd.readingValue)]) ∧
    (∃ fr, (⟨db0.nextFlowFileId, basename pathA, fr, n1⟩ : FlowFile) ∈ db2.flowFiles) ∧
    n1 = (newKeys (fun q => hasQuad db0 q) (fdA.readings.map ReadingData.quad)).length ∧
    k ∈ newKeys (fun q => hasQuad db0 q) (fdA.readings.map ReadingData.quad) ∧
    (newKeys (fun q => hasQuad db0 q) (fdA.readings.map ReadingData.quad)).Nodup ∧
    n2 = (newKeys (fun q => hasQuad db1 q) (fdB.readings.map ReadingData.quad)).length ∧
    k ∉ newKeys (fun q => hasQuad db1 q) (fdB.readings.map ReadingData.quad) := by
  obtain ⟨linesA2, fdA2, hexA2, _, hpA2, hsvA⟩ :=
    import_file_ok_elim fs1 db0 pathA db1 n1 himpA
  rw [hexA] at hexA2
  injection hexA2 with hlA
  subst hlA
  rw [hpA] at hpA2
  injection hpA2 with hfA
  subst hfA
  obtain ⟨hwf1, hn1, hqiA, _, _, _, hnf1, hffA⟩ :=
    save_file_data_spec db0 fdA (basename pathA) hwf db1 n1 hsvA
  obtain ⟨linesB2, fdB2, hexB2, _, hpB2, hsvB⟩ :=
    import_file_ok_elim fs2 db1 pathB db2 n2 himpB
  rw [hexB] at hexB2
  injection hexB2 with hlB
  subst hlB
  rw [hpB] at hpB2
  injection hpB2 with hfB
  subst hfB
  obtain ⟨hwf2, hn2, hqiB, _, _, _, _, hffB⟩ :=
    save_file_data_spec db1 fdB (basename pathB) hwf1 db2 n2 hsvB
  have hempty0 : quadInfo db0 k = [] := by
    rw [hasQuad_eq] at hnew
    have h2 : (quadInfo db0 k).isEmpty = true := by
      revert hnew
      cases (quadInfo db0 k).isEmpty <;> simp
    exact List.isEmpty_iff.mp h2
  obtain ⟨rdk, hmemk, hquadk⟩ := List.mem_map.mp hkA
  have hfindA : ∃ rd, fdA.readings.find? (fun z => decide (z.quad = k)) = some rd := by
    have hs : (fdA.readings.find? (fun z => decide (z.quad = k))).isSome = true :=
      List.find?_isSome.mpr ⟨rdk, hmemk, by simp [hquadk]⟩
    cases hf : fdA.readings.find? (fun z => decide (z.quad = k)) with
    | none => rw [hf] at hs; cases hs
    | some rd => exact ⟨rd, rfl⟩
  obtain ⟨rd, hfind⟩ := hfindA
  have hq1 : quadInfo db1 k = [(db0.nextFlowFileId, rd.readingValue)] := by
    rw [hqiA k, hempty0]
    unfold loopAppend
    rw [if_neg (by simp [hnew]), hfind]
    rfl
  have hhas1 : hasQuad db1 k = true := by
    rw [hasQuad_eq, hq1]
    rfl
  have hq2 : quadInfo db2 k = [(db0.nextFlowFileId, rd.readingValue)] := by
    rw [hqiB k, hq1]
    unfold loopAppend
    rw [if_pos (by rw [hhas1]), List.append_nil]
  refine ⟨⟨rd, hfind, hq1, hq2⟩, ?_, hn1, ?_, newKeys_nodup _ _, hn2, ?_⟩
  · obtain ⟨frA, heA⟩ := hffA
    obtain ⟨frB, heB⟩ := hffB
    refine ⟨frA, ?_⟩
    rw [heB, heA]
    exact List.mem_append.mpr (Or.inl (List.mem_append.mpr (Or.inr (by simp))))
  · exact (mem_newKeys k _ _).mpr ⟨hkA, hnew⟩
  · intro hmem
    rcases (mem_newKeys k _ _).mp hmem with ⟨_, hfalse⟩
    rw [hhas1] at hfalse
    cases hfalse

/-- C1 witness: file `a.uff` creates the reading for key
`(1234567890123, M1, 01, 2023-12-01 10:00:00)` with value 5.0; file
`b.uff` carries the identical key with value 7.5 and meter type `P`.
After both imports exactly one row with that key exists, attributed to
flow file 0 (`a.uff`) with value 5.0 unchanged; the key contributes 1
to the first count and 0 to the second. -/
theorem C1_shared_triple_round_trip_witness :
    (∃ rd, (FileData.readings
        ⟨none, [⟨"1234567890123", "M1", some "S", "01", ⟨2023, 12, 1, 10, 0, 0⟩,
                 ⟨false, 50, -1⟩, "ACTUAL"⟩], none⟩).find?
          (fun z => decide (z.quad
            = ⟨"1234567890123", "M1", "01", ⟨2023, 12, 1, 10, 0, 0⟩⟩)) = some rd
      ∧ quadInfo
          ⟨[⟨0, "a.uff", "", 1⟩], [⟨0, "1234567890123"⟩], [⟨0, 0, "M1", some "S"⟩],
           [⟨0, 0, "01", ⟨2023, 12, 1, 10, 0, 0⟩, ⟨false, 50, -1⟩, "ACTUAL"⟩], 1, 1, 1⟩
          ⟨"1234567890123", "M1", "01", ⟨2023, 12, 1, 10, 0, 0⟩⟩
          = [(0, rd.readingValue)]
      ∧ quadInfo
          ⟨[⟨0, "a.uff", "", 1⟩, ⟨1, "b.uff", "", 0⟩],
           [⟨0, "1234567890123"⟩], [⟨0, 0, "M1", some "S"⟩],
           [⟨0, 0, "01", ⟨2023, 12, 1, 10, 0, 0⟩, ⟨false, 50, -1⟩, "ACTUAL"⟩], 2, 1, 1⟩
          ⟨"1234567890123", "M1", "01", ⟨2023, 12, 1, 10, 0, 0⟩⟩
          = [(0, rd.readingValue)]) ∧
    (∃ fr, (⟨0, basename "a.uff", fr, 1⟩ : FlowFile) ∈
      ([⟨0, "a.uff", "", 1⟩, ⟨1, "b.uff", "", 0⟩] : List FlowFile)) ∧
    1 = (newKeys (fun q => hasQuad emptyDB q)
      ((FileData.readings
        ⟨none, [⟨"1234567890123", "M1", some "S", "01", ⟨2023, 12, 1, 10, 0, 0⟩,
                 ⟨false, 50, -1⟩, "ACTUAL"⟩], none⟩).map ReadingData.quad)).length ∧
    (⟨"1234567890123", "M1", "01", ⟨2023, 12, 1, 10, 0, 0⟩⟩ : Quad)
      ∈ newKeys (fun q => hasQuad emptyDB q)
        ((FileData.readings
          ⟨none, [⟨"1234567890123", "M1", some "S", "01", ⟨2023, 12, 1, 10, 0, 0⟩,
                   ⟨false, 50, -1⟩, "ACTUAL"⟩], none⟩).map ReadingData.quad) ∧
    (newKeys (fun q => hasQuad emptyDB q)
      ((FileData.readings
        ⟨none, [⟨"1234567890123", "M1", some "S", "01", ⟨2023, 12, 1, 10, 0, 0⟩,
                 ⟨false, 50, -1⟩, "ACTUAL"⟩], none⟩).map ReadingData.quad)).Nodup ∧
    0 = (newKeys (fun q => hasQuad
        ⟨[⟨0, "a.uff", "", 1⟩], [⟨0, "1234567890123"⟩], [⟨0, 0, "M1", some "S"⟩],
         [⟨0, 0, "01", ⟨2023, 12, 1, 10, 0, 0⟩, ⟨false, 50, -1⟩, "ACTUAL"⟩], 1, 1, 1⟩ q)
      ((FileData.readings
        ⟨none, [⟨"1234567890123", "M1", some "P", "01", ⟨2023, 12, 1, 10, 0, 0⟩,
                 ⟨false, 75, -1⟩, "ACTUAL"⟩], none⟩).map ReadingData.quad)).length ∧
    (⟨"1234567890123", "M1", "01", ⟨2023, 12, 1, 10, 0, 0⟩⟩ : Quad)
      ∉ newKeys (fun q => hasQuad
        ⟨[⟨0, "a.uff", "", 1⟩], [⟨0, "1234567890123"⟩], [⟨0, 0, "M1", some "S"⟩],
         [⟨0, 0, "01", ⟨2023, 12, 1, 10, 0, 0⟩, ⟨false, 50, -1⟩, "ACTUAL"⟩], 1, 1, 1⟩ q)
        ((FileData.readings
          ⟨none, [⟨"1234567890123", "M1", some "P", "01", ⟨2023, 12, 1, 10, 0, 0⟩,
                   ⟨false, 75, -1⟩, "ACTUAL"⟩], none⟩).map ReadingData.quad) :=
  C1_shared_triple_round_trip
    [("a.uff", ["026|1234567890123", "028|M1|S", "030|01|20231201100000|5.0"])]
    [("b.uff", ["026|1234567890123", "028|M1|P", "030|01|20231201100000|7.5"])]
    emptyDB
    ⟨[⟨0, "a.uff", "", 1⟩], [⟨0, "1234567890123"⟩], [⟨0, 0, "M1", some "S"⟩],
     [⟨0, 0, "01", ⟨2023, 12, 1, 10, 0, 0⟩, ⟨false, 50, -1⟩, "ACTUAL"⟩], 1, 1, 1⟩
    ⟨[⟨0, "a.uff", "", 1⟩, ⟨1, "b.uff", "", 0⟩],
     [⟨0, "1234567890123"⟩], [⟨0, 0, "M1", some "S"⟩],
     [⟨0, 0, "01", ⟨2023, 12, 1, 10, 0, 0⟩, ⟨false, 50, -1⟩, "ACTUAL"⟩], 2, 1, 1⟩
    "a.uff" "b.uff"
    ["026|1234567890123", "028|M1|S", "030|01|20231201100000|5.0"]
    ["026|1234567890123", "028|M1|P", "030|01|20231201100000|7.5"]
    ⟨none, [⟨"1234567890123", "M1", some "S", "01", ⟨2023, 12, 1, 10, 0, 0⟩,
             ⟨false, 50, -1⟩, "ACTUAL"⟩], none⟩
    ⟨none, [⟨"1234567890123", "M1", some "P", "01", ⟨2023, 12, 1, 10, 0, 0⟩,
             ⟨false, 75, -1⟩, "ACTUAL"⟩], none⟩
    1 0
    ⟨"1234567890123", "M1", "01", ⟨2023, 12, 1, 10, 0, 0⟩⟩
    (by decide) (by rfl) (by rfl) (by rfl) (by rfl) (by rfl) (by rfl)
    (by decide) (by decide) (by decide)
